import Mathlib

/-!
A verification development for the clawosseum tournament/match scheduler
(`src/server/index.mjs`), together with the demo wildcard selection from the
web UI (`src/unnamed/part_002`) and the persistence loader (`loadState`).

Modelling conventions:
* JS objects used as counter maps (`season.wins` etc.) are association lists
  `List (String × Nat)`; `lookupNum` is `Number(obj[k]) || 0`.
* ISO timestamp strings are modelled by their epoch-millisecond values
  (`Nat`); the only comparison the scheduler performs on them is
  `Date.now() >= new Date(closesAt).getTime()` in `lobbyReadyToStart`.
* Status strings (`'open'`, `'closed'`, `'running'`, `'complete'`) are kept
  as strings, as in the source.
* Calls to `Math.random()` and `nanoid()` are the external inputs of an
  operation; they are gathered in an `Env` record: the shuffle comparator
  sorts (`[...xs].sort(() => Math.random() - 0.5)`) become oracle functions,
  the resolution coin flip a `Bool`, and the fresh nanoid values strings.
* Persistence writes (`saveStateSoon`), websocket `broadcast`s, and the
  best-effort MongoDB calls are external side effects with no influence on
  scheduler state and are omitted.
-/

namespace Claw

/-- One agent of the roster (`/** @typedef Agent */`, `src/server/index.mjs:79`).
`llm` is optional: agents created through `POST /api/agents` have no `llm`
field, agents joined through `POST /api/v1/arena/join` do. -/
structure Agent where
  id : String
  name : String
  llm : Option String
  createdAt : Nat
  deriving Repr, DecidableEq

/-- A narrative event of a match (`MatchEvent` typedef, line 80). -/
structure MatchEvent where
  t : Nat
  type : String
  message : String
  deriving Repr, DecidableEq

/-- A match record (`Match` typedef, line 81).  `problemId`/`problemPrompt`
are only ever set by the asynchronous MongoDB attachment and stay `null`
in the scheduler model. -/
structure Match where
  id : String
  status : String
  agents : List String
  winnerId : Option String
  startedAt : Nat
  endedAt : Option Nat
  events : List MatchEvent
  deriving Repr, DecidableEq

/-- The matchmaking lobby (shape built by `ensureLobby`, lines 190-203). -/
structure Lobby where
  id : String
  status : String
  startedAt : Nat
  closesAt : Nat
  agentIds : List String
  deriving Repr, DecidableEq

/-- The single-elimination bracket state (shape built by
`startTournamentFromLobby`, lines 229-236). -/
structure TournamentRun where
  id : String
  status : String
  round : Nat
  participants : List String
  pool : List String
  next : List String
  deriving Repr, DecidableEq

/-- A counter map: a JS object whose values are numbers. -/
abbrev CountMap := List (String × Nat)

/-- The season ledger (`state.season`). -/
structure Season where
  number : Nat
  id : String
  startedAt : Nat
  wins : CountMap
  played : CountMap
  deriving Repr, DecidableEq

/-- The all-time ledger (`state.allTime`). -/
structure AllTime where
  wins : CountMap
  played : CountMap
  deriving Repr, DecidableEq

/-- The whole mutable scheduler state (`let state = loadState()`).  The
x402 `tournaments`/`credits` fields do not interact with the scheduler and
are omitted. -/
structure ArenaState where
  agents : List Agent
  /-- the source field is named `matches`, a reserved token in Lean -/
  matchLog : List Match
  currentMatchId : Option String
  lobby : Option Lobby
  tournamentRun : Option TournamentRun
  season : Season
  allTime : AllTime
  deriving Repr, DecidableEq

/-- The external inputs an operation may consume: the wall clock, the
`Math.random()` coin flip of `resolveMatch`, the `ARENA_PERMADEATH`
environment flag, the two comparator-shuffles, and fresh `nanoid` values. -/
structure Env where
  nowMs : Nat
  coin : Bool
  permaDeath : Bool
  shuffle : List String → List String
  shuffleAgents : List Agent → List Agent
  newMatchId : String
  newAgentId : String
  newRunId : String
  newLobbyId : String

/-- `LOBBY_MIN_AGENTS` default (line 186). -/
def LOBBY_MIN_AGENTS : Nat := 2
/-- `LOBBY_MAX_AGENTS` default (line 187). -/
def LOBBY_MAX_AGENTS : Nat := 10
/-- `LOBBY_WAIT_MS` default, 4 minutes (line 188). -/
def LOBBY_WAIT_MS : Nat := 240000

/-- `Number(obj[k]) || 0`: read a counter, defaulting to 0. -/
def lookupNum (m : CountMap) (k : String) : Nat :=
  match m with
  | [] => 0
  | p :: rest => if p.1 = k then p.2 else lookupNum rest k

/-- `obj[k] = v`: set a key of a JS object (keys are unique in an object;
on an association list we update every binding of the key, or append). -/
def setNum (m : CountMap) (k : String) (v : Nat) : CountMap :=
  match m with
  | [] => [(k, v)]
  | p :: rest => if p.1 = k then (k, v) :: rest else p :: setNum rest k v

/-- `inc(obj, key)` (lines 830-834): no-op on a falsy key, otherwise
`obj[k] = (Number(obj[k]) || 0) + 1`. -/
def inc (m : CountMap) (key : String) : CountMap :=
  if key = "" then m else setNum m key (lookupNum m key + 1)

/-- `state.matches.find((m) => m.id === matchId)`. -/
def findMatch? (ms : List Match) (mid : String) : Option Match :=
  match ms with
  | [] => none
  | m :: rest => if m.id = mid then some m else findMatch? rest mid

/-- `state.agents.find((x) => x.id === id)`. -/
def findAgent? (ags : List Agent) (id : String) : Option Agent :=
  match ags with
  | [] => none
  | a :: rest => if a.id = id then some a else findAgent? rest id

/-- Mutation of the first agent satisfying a predicate (the in-place update
of the object returned by `state.agents.find`). -/
def updateFirstAgent (ags : List Agent) (p : Agent → Bool) (f : Agent → Agent) :
    List Agent :=
  match ags with
  | [] => []
  | a :: rest => if p a then f a :: rest else a :: updateFirstAgent rest p f

/-- Replace the first match with the given id (the in-place mutation of the
object returned by `state.matches.find`). -/
def replaceMatch (ms : List Match) (mid : String) (m' : Match) : List Match :=
  match ms with
  | [] => []
  | m :: rest => if m.id = mid then m' :: rest else m :: replaceMatch rest mid m'

/-- `getCurrentMatch()` (lines 180-183). -/
def getCurrentMatch (s : ArenaState) : Option Match :=
  match s.currentMatchId with
  | none => none
  | some id => findMatch? s.matchLog id

/-- The pool of the active run, `[]` when there is no run. -/
def runPool (s : ArenaState) : List String :=
  match s.tournamentRun with
  | some t => t.pool
  | none => []

/-- The next-round list of the active run, `[]` when there is no run. -/
def runNext (s : ArenaState) : List String :=
  match s.tournamentRun with
  | some t => t.next
  | none => []

/-- The participants of the active run, `[]` when there is no run. -/
def runParticipants (s : ArenaState) : List String :=
  match s.tournamentRun with
  | some t => t.participants
  | none => []

/-- The status of the active run, `""` when there is no run. -/
def runStatus (s : ArenaState) : String :=
  match s.tournamentRun with
  | some t => t.status
  | none => ""

/-- Whether a run exists and has status `'running'`
(`state.tournamentRun?.status === 'running'`). -/
def runIsRunning (s : ArenaState) : Bool :=
  match s.tournamentRun with
  | some t => t.status = "running"
  | none => false

/-- `ensureLobby()` (lines 190-203): reuse the open lobby, otherwise create
a fresh one with deadline `now + LOBBY_WAIT_MS`. -/
def ensureLobby (env : Env) (s : ArenaState) : ArenaState × Lobby :=
  match s.lobby with
  | some l =>
    if l.status = "open" then (s, l)
    else
      let l' : Lobby := { id := env.newLobbyId, status := "open", startedAt := env.nowMs,
                          closesAt := env.nowMs + LOBBY_WAIT_MS, agentIds := [] }
      ({ s with lobby := some l' }, l')
  | none =>
      let l' : Lobby := { id := env.newLobbyId, status := "open", startedAt := env.nowMs,
                          closesAt := env.nowMs + LOBBY_WAIT_MS, agentIds := [] }
      ({ s with lobby := some l' }, l')

/-- `lobbyAddAgent(agentId)` (lines 205-210): ensure an open lobby and
append the id if absent; no-op on a falsy id. -/
def lobbyAddAgent (env : Env) (agentId : String) (s : ArenaState) : ArenaState :=
  if agentId = "" then s
  else
    let p := ensureLobby env s
    let l := p.2
    if agentId ∈ l.agentIds then p.1
    else { p.1 with lobby := some { l with agentIds := l.agentIds ++ [agentId] } }

/-- `lobbyReadyToStart()` (lines 212-221). -/
def lobbyReadyToStart (env : Env) (s : ArenaState) : Bool :=
  match s.lobby with
  | none => false
  | some l =>
    if l.status ≠ "open" then false
    else if l.agentIds.length < LOBBY_MIN_AGENTS then false
    else if LOBBY_MAX_AGENTS ≤ l.agentIds.length then true
    else decide (l.closesAt ≤ env.nowMs)

/-- `state.matches.push(match); state.currentMatchId = match.id`: the
common registration step of the two match-creation sites. -/
def registerMatch (s : ArenaState) (m : Match) : ArenaState :=
  { s with matchLog := s.matchLog ++ [m], currentMatchId := some m.id }

/-- `createMatch(aId, bId, label)` (lines 245-292): fails (returns `null`,
changing nothing) when either agent id is not in the roster; otherwise
pushes a fresh `running` match and points `currentMatchId` at it.  The
asynchronous MongoDB problem attachment and the auto-resolve timer are
external effects. -/
def createMatch (env : Env) (aId bId label : String) (s : ArenaState) :
    ArenaState × Option Match :=
  match findAgent? s.agents aId, findAgent? s.agents bId with
  | some a, some b =>
    let m : Match :=
      { id := env.newMatchId, status := "running", agents := [a.id, b.id],
        winnerId := none, startedAt := env.nowMs, endedAt := none,
        events := [⟨env.nowMs, "announce", label⟩,
                   ⟨env.nowMs, "start", "Match started: " ++ a.name ++ " vs " ++ b.name⟩,
                   ⟨env.nowMs, "announce", "The gates open. The crowd roars."⟩] }
    (registerMatch s m, some m)
  | _, _ => (s, none)

/-- One unfolding of `tickTournament()` (lines 294-329), with explicit fuel
for the recursive call in the bye branch.  The source recursion depth is at
most 2: the only recursive call is made with `pool = []`, and a call entered
with `pool = []` either completes the run, or advances the round and can
recurse at most once more (again with `pool = []` and a singleton `next`,
which completes).  Fuel 3 therefore computes the exact source behaviour. -/
def tickFuel : Nat → Env → ArenaState → ArenaState
  | 0, _, s => s
  | fuel + 1, env, s =>
    match s.tournamentRun with
    | none => s
    | some t =>
      if t.status ≠ "running" then s
      else if (getCurrentMatch s).isSome then s
      else if t.pool = [] ∧ t.next.length = 1 then
        -- champion found
        { s with tournamentRun := some { t with status := "complete" } }
      else
        -- round complete: advance the round and reshuffle the winners
        let t1 := if t.pool = []
          then { t with round := t.round + 1, pool := env.shuffle t.next, next := [] }
          else t
        if t1.pool.length = 1 then
          -- odd pool: wildcard bye, then tick again
          let t2 := { t1 with next := t1.next ++ [t1.pool.headD ""], pool := [] }
          tickFuel fuel env { s with tournamentRun := some t2 }
        else
          match t1.pool with
          | a :: b :: rest =>
            let s2 := { s with tournamentRun := some { t1 with pool := rest } }
            if a = "" ∨ b = "" then s2
            else (createMatch env a b ("ROUND " ++ toString t1.round) s2).1
          | _ => { s with tournamentRun := some t1 }

/-- `tickTournament()` (lines 294-329). -/
def tickTournament (env : Env) (s : ArenaState) : ArenaState :=
  tickFuel 3 env s

/-- `startTournamentFromLobby()` (lines 223-243): filter the lobby roster
to currently-valid agents, refuse below the minimum, otherwise install a
fresh running bracket, close the lobby, and tick. -/
def startTournamentFromLobby (env : Env) (s : ArenaState) : ArenaState × Bool :=
  match s.lobby with
  | none => (s, false)
  | some lobby =>
    if lobby.status ≠ "open" then (s, false)
    else
      let ids := lobby.agentIds.filter (fun id => (findAgent? s.agents id).isSome)
      if ids.length < LOBBY_MIN_AGENTS then (s, false)
      else
        let run : TournamentRun :=
          { id := env.newRunId, status := "running", round := 1,
            participants := ids, pool := env.shuffle ids, next := [] }
        let s1 := { s with tournamentRun := some run,
                           lobby := some { lobby with status := "closed" } }
        (tickTournament env s1, true)

/-- One iteration of the lobby readiness loop (lines 332-343): only when no
tournament is running and no match is active, check readiness and start. -/
def lobbyLoopTick (env : Env) (s : ArenaState) : ArenaState :=
  if runIsRunning s then s
  else if (getCurrentMatch s).isSome then s
  else if lobbyReadyToStart env s then (startTournamentFromLobby env s).1
  else s

/-- `String.prototype.trim()` as used on lines 676-677: strip leading and
trailing whitespace.  (Defined over the character list so that it reduces in
the kernel, unlike `String.trim`.) -/
def jsTrim (s : String) : String :=
  ⟨((s.data.dropWhile Char.isWhitespace).reverse.dropWhile Char.isWhitespace).reverse⟩

/-- ASCII lower-casing of one character, as `toLowerCase` does on the
agent names in play here. -/
def jsLowerChar (c : Char) : Char :=
  if 65 ≤ c.toNat ∧ c.toNat ≤ 90 then Char.ofNat (c.toNat + 32) else c

/-- `String.prototype.toLowerCase()` (line 684), restricted to ASCII. -/
def jsToLower (s : String) : String := ⟨s.data.map jsLowerChar⟩

/-- Outcome of `POST /api/v1/arena/join`. -/
inductive JoinResult where
  | err (status : Nat) (msg : String)
  | okExisting (agent : Agent)
  | okNew (agent : Agent)
  deriving Repr, DecidableEq

/-- `POST /api/v1/arena/join` (lines 673-709): validate, then either return
the existing agent (updating a stale `llm` tag), or create the agent, add it
to the matchmaking lobby and start the tournament immediately when the lobby
is ready. -/
def arenaJoin (env : Env) (s : ArenaState) (name0 llm0 : String) :
    ArenaState × JoinResult :=
  let name := jsTrim name0
  let llm := jsTrim llm0
  if name = "" ∨ 64 < name.length then (s, .err 400 "name required (<=64 chars)")
  else if llm = "" ∨ 32 < llm.length then (s, .err 400 "llm required (<=32 chars)")
  else
    match s.agents.find? (fun a => jsToLower a.name == jsToLower name) with
    | some existing =>
      if existing.llm.getD "" = "" ∨ existing.llm ≠ some llm then
        let agents' := updateFirstAgent s.agents
          (fun a => jsToLower a.name == jsToLower name) (fun a => { a with llm := some llm })
        ({ s with agents := agents' }, .okExisting { existing with llm := some llm })
      else (s, .okExisting existing)
    | none =>
      let agent : Agent := { id := env.newAgentId, name := name, llm := some llm,
                             createdAt := env.nowMs }
      let s1 := { s with agents := s.agents ++ [agent] }
      let s2 := lobbyAddAgent env agent.id s1
      let s3 := if lobbyReadyToStart env s2 then (startTournamentFromLobby env s2).1 else s2
      (s3, .okNew agent)

/-- Outcome of `POST /api/matches/start`. -/
inductive QMResult where
  | err (status : Nat) (msg : String)
  | ok (m : Match)
  deriving Repr, DecidableEq

/-- The creation half of `POST /api/matches/start` once the two ids are
picked (lines 725-762). -/
def startQuickMatchWith (env : Env) (s : ArenaState) (pickedIds : List String) :
    ArenaState × QMResult :=
  if pickedIds.length ≠ 2 ∨ pickedIds.getD 0 "" = pickedIds.getD 1 "" then
    (s, .err 400 "provide two different agent ids")
  else
    match findAgent? s.agents (pickedIds.getD 0 ""), findAgent? s.agents (pickedIds.getD 1 "") with
    | some a, some b =>
      let m : Match :=
        { id := env.newMatchId, status := "running", agents := [a.id, b.id],
          winnerId := none, startedAt := env.nowMs, endedAt := none,
          events := [⟨env.nowMs, "start", "Match started: " ++ a.name ++ " vs " ++ b.name⟩,
                     ⟨env.nowMs, "announce", "The gates open. The crowd roars."⟩] }
      match getCurrentMatch s with
      | some cur =>
        if cur.status = "running" then (s, .err 409 "a match is already running")
        else (registerMatch s m, .ok m)
      | none => (registerMatch s m, .ok m)
    | _, _ => (s, .err 404 "agent id not found")

/-- `POST /api/matches/start` (lines 711-762): use the supplied ids, or pick
two at random when both are omitted.  Indexing `shuffled[0]`/`shuffled[1]`
cannot fail in the source because the comparator sort permutes a roster of
length at least 2; a hypothetical shorter oracle output is modelled as the
thrown `TypeError` (an error reply, no state change). -/
def startQuickMatch (env : Env) (s : ArenaState) (aId0 bId0 : String) :
    ArenaState × QMResult :=
  let ids := [jsTrim aId0, jsTrim bId0].filter (fun x => x ≠ "")
  if ids = [] then
    if s.agents.length < 2 then (s, .err 400 "need at least 2 agents")
    else
      match env.shuffleAgents s.agents with
      | x :: y :: _ => startQuickMatchWith env s [x.id, y.id]
      | _ => (s, .err 500 "exception")
  else startQuickMatchWith env s ids

/-- Outcome of `resolveMatch`. -/
inductive RResult where
  | err (status : Nat) (msg : String)
  | already (m : Match)
  | ok (m : Match)
  deriving Repr, DecidableEq

/-- The match record carried by a success outcome. -/
def RResult.record : RResult → Option Match
  | .err _ _ => none
  | .already m => some m
  | .ok m => some m

/-- The winner decision of `resolveMatch` (lines 845-847): the forced winner
when it is one of the participants, otherwise a coin flip between the two. -/
def decideWinner (env : Env) (m : Match) (forcedWinnerId : Option String) : String :=
  let aId := m.agents.getD 0 ""
  let bId := m.agents.getD 1 ""
  match forcedWinnerId with
  | some w => if w ≠ "" ∧ w ∈ m.agents then w else if env.coin then aId else bId
  | none => if env.coin then aId else bId

/-- The completed match record `resolveMatch` writes back (lines 841-855
and the event pushes on lines 864-872): status `complete`, winner, end
time, and the appended narrative events. -/
def resolveRecord (env : Env) (s : ArenaState) (m : Match)
    (forcedWinnerId : Option String) : Match :=
  let aId := m.agents.getD 0 ""
  let bId := m.agents.getD 1 ""
  let winnerId := decideWinner env m forcedWinnerId
  let loserId := if winnerId = aId then bId else aId
  let wn := if winnerId = aId then ((findAgent? s.agents aId).map Agent.name).getD ""
            else ((findAgent? s.agents bId).map Agent.name).getD ""
  let ln := if loserId = aId then ((findAgent? s.agents aId).map Agent.name).getD ""
            else ((findAgent? s.agents bId).map Agent.name).getD ""
  let winnerName := if wn = "" then winnerId else wn
  let loserName := if ln = "" then loserId else ln
  let baseEvents := m.events ++
    [⟨env.nowMs, "clash", "Steel meets steel. Sand sprays."⟩,
     ⟨env.nowMs, "result", winnerName ++ " defeats " ++ loserName ++ ". The loser perishes."⟩]
  { m with
    status := "complete",
    winnerId := some winnerId,
    endedAt := some env.nowMs,
    events := if env.permaDeath
      then baseEvents ++ [⟨env.nowMs, "death", loserName ++ " has been removed from the roster."⟩]
      else baseEvents }

/-- The state right after the synchronous mutations of `resolveMatch`
(lines 853-885): match completed in the log, ledgers incremented,
permadeath applied to the roster, current-match pointer cleared, and the
winner advanced into a running bracket — all before the closing tick. -/
def resolveState1 (env : Env) (s : ArenaState) (matchId : String) (m : Match)
    (forcedWinnerId : Option String) : ArenaState :=
  let aId := m.agents.getD 0 ""
  let bId := m.agents.getD 1 ""
  let winnerId := decideWinner env m forcedWinnerId
  let loserId := if winnerId = aId then bId else aId
  { agents := if env.permaDeath then s.agents.filter (fun x => x.id ≠ loserId) else s.agents,
    matchLog := replaceMatch s.matchLog matchId (resolveRecord env s m forcedWinnerId),
    currentMatchId := if s.currentMatchId = some matchId then none else s.currentMatchId,
    lobby := s.lobby,
    tournamentRun := match s.tournamentRun with
      | some t => if t.status = "running" then some { t with next := t.next ++ [winnerId] }
                  else some t
      | none => none,
    season := { s.season with
      played := inc (inc s.season.played aId) bId,
      wins := inc s.season.wins winnerId },
    allTime := {
      played := inc (inc s.allTime.played aId) bId,
      wins := inc s.allTime.wins winnerId } }

/-- `resolveMatch(matchId, forcedWinnerId)` (lines 836-911): unknown id is a
404; an already-completed match is returned unchanged; otherwise decide the
winner, complete the match, record stats in both ledgers, apply permadeath,
clear the current-match pointer, advance the bracket and tick. -/
def resolveMatch (env : Env) (s : ArenaState) (matchId : String)
    (forcedWinnerId : Option String) : ArenaState × RResult :=
  match findMatch? s.matchLog matchId with
  | none => (s, .err 404 "match not found")
  | some m =>
    if m.status ≠ "running" then (s, .already m)
    else
      let s1 := resolveState1 env s matchId m forcedWinnerId
      let s2 := if runIsRunning s1 then tickTournament env s1 else s1
      (s2, .ok (resolveRecord env s m forcedWinnerId))

/-- `POST /api/season/reset` (lines 764-781). -/
def resetSeason (env : Env) (s : ArenaState) : ArenaState :=
  { s with season := { number := (if s.season.number = 0 then 1 else s.season.number) + 1,
                       id := env.newRunId, startedAt := env.nowMs, wins := [], played := [] } }

/-- `POST /api/arena/restart` (lines 785-820). -/
def restartArena (env : Env) (clearAllTime : Bool) (s : ArenaState) : ArenaState :=
  { agents := [], matchLog := [], currentMatchId := none, lobby := none,
    tournamentRun := none,
    season := { number := (if s.season.number = 0 then 1 else s.season.number) + 1,
                id := env.newRunId, startedAt := env.nowMs, wins := [], played := [] },
    allTime := if clearAllTime then { wins := [], played := [] } else s.allTime }

/-- The state a fresh server starts from (`loadState`'s catch branch,
lines 147-162). -/
def initState : ArenaState :=
  { agents := [], matchLog := [], currentMatchId := none, lobby := none,
    tournamentRun := none,
    season := { number := 1, id := "run-0", startedAt := 0, wins := [], played := [] },
    allTime := { wins := [], played := [] } }

/-- Freshness of the nanoid match id an operation may mint: `nanoid(12)`
never repeats an existing match id. -/
def FreshMatchId (env : Env) (s : ArenaState) : Prop :=
  env.newMatchId ∉ s.matchLog.map Match.id

/-- One scheduler operation: a join, a manual quick-match start, the lobby
readiness timer, a bracket tick, a match resolution (manual or by the
auto-resolve timer), a season reset or an arena restart, each applied
atomically to the shared state (the server is single-threaded). -/
inductive Step : ArenaState → ArenaState → Prop where
  | join (s : ArenaState) (env : Env) (name llm : String) (hf : FreshMatchId env s) :
      Step s (arenaJoin env s name llm).1
  | quickStart (s : ArenaState) (env : Env) (aId bId : String) (hf : FreshMatchId env s) :
      Step s (startQuickMatch env s aId bId).1
  | lobbyTick (s : ArenaState) (env : Env) (hf : FreshMatchId env s) :
      Step s (lobbyLoopTick env s)
  | tick (s : ArenaState) (env : Env) (hf : FreshMatchId env s) :
      Step s (tickTournament env s)
  | resolve (s : ArenaState) (env : Env) (mid : String) (forced : Option String)
      (hf : FreshMatchId env s) :
      Step s (resolveMatch env s mid forced).1
  | seasonReset (s : ArenaState) (env : Env) :
      Step s (resetSeason env s)
  | restart (s : ArenaState) (env : Env) (wipe : Bool) :
      Step s (restartArena env wipe s)

/-- The states reachable from a fresh server by scheduler operations. -/
def Reachable (s : ArenaState) : Prop :=
  Relation.ReflTransGen Step initState s

/-! The demo tournament playback of the web UI (`src/unnamed/part_002`):
round-1 winners/losers and the wildcard pick among the losers. -/

/-- `Math.imul(a, b) >>> 0`: the low 32 bits of the product of two 32-bit
values (sign interpretation does not change the bit pattern). -/
def imul32 (a b : Nat) : Nat := (a * b) % 4294967296

/-- `hashString(s)` (`src/unnamed/part_002:1161`): a fast, deterministic,
non-crypto hash; for each UTF-16 unit, `h ^= s.charCodeAt(i)` then
`h = Math.imul(h, 16777619)`, returned as `h >>> 0`.  Every string hashed
in the demo is ASCII, where UTF-16 units coincide with code points. -/
def hashString (s : String) : Nat :=
  s.data.foldl (fun h c => imul32 (Nat.xor h c.toNat) 16777619) 2166136261

/-- `pickWinner(aId, bId)` of the demo playback (`src/unnamed/part_002:1522`),
commented in the source as deterministic-ish, stable across reloads. -/
def pickWinner (aId bId : String) : String :=
  if hashString (aId ++ "|" ++ bId) % 2 = 0 then aId else bId

/-- The ten demo agent ids (`demoAgents` in `src/unnamed/part_002`). -/
def demoIds : List String :=
  ["demo-01", "demo-02", "demo-03", "demo-04", "demo-05",
   "demo-06", "demo-07", "demo-08", "demo-09", "demo-10"]

/-- The fixed round-1 pairings (`round1Pairs`, `src/unnamed/part_002:1544`). -/
def round1Pairs (ids : List String) : List (String × String) :=
  [(ids.getD 0 "", ids.getD 1 ""), (ids.getD 2 "", ids.getD 3 ""),
   (ids.getD 4 "", ids.getD 5 ""), (ids.getD 6 "", ids.getD 7 ""),
   (ids.getD 8 "", ids.getD 9 "")]

/-- The round-1 winners, in pairing order (the `r1Winners` loop). -/
def r1Winners (ids : List String) : List String :=
  (round1Pairs ids).map (fun p => pickWinner p.1 p.2)

/-- The round-1 losers, in pairing order (the `r1Losers` loop). -/
def r1Losers (ids : List String) : List String :=
  (round1Pairs ids).map (fun p => if pickWinner p.1 p.2 = p.1 then p.2 else p.1)

/-- The wildcard selection (`src/unnamed/part_002:1560`):
`r1Losers[hashString(r1Losers.join('|')) % r1Losers.length]`. -/
def wildcard (losers : List String) : Option String :=
  losers.get? (hashString (String.intercalate "|" losers) % losers.length)

/-- One run of the wildcard selection inside the browser demo.  A run has
the ambient `Math.random` stream (modelled as `rand`) available to it; the
selection expression at `src/unnamed/part_002:1560` contains no call to it,
so a run's pick ignores the stream. -/
def wildcardRun (rand : Nat → Nat) (losers : List String) : Option String :=
  wildcard losers

/-! The persistence loader `loadState` (`src/server/index.mjs:91`,
identically `src/unnamed/part_007`), restricted to its lobby branch
(lines 99 and 108-116), which is what the loader claims concern. -/

/-- A JSON value as `JSON.parse` yields it. -/
inductive JVal where
  | str (s : String)
  | num (n : Int)
  | boolv (b : Bool)
  | null
  | arr (xs : List JVal)
  | obj (fields : List (String × JVal))

/-- Property lookup on an object value. -/
def jlookup (fs : List (String × JVal)) (k : String) : Option JVal :=
  match fs with
  | [] => none
  | p :: rest => if p.1 = k then some p.2 else jlookup rest k

/-- `v[k]` for an object value, `undefined` otherwise. -/
def JVal.get? (v : JVal) (k : String) : Option JVal :=
  match v with
  | .obj fs => jlookup fs k
  | _ => none

/-- `x && typeof x === 'object'`: truthy and of object type (JS arrays are
objects too; `null` is falsy, so it never passes the truthiness guard). -/
def jIsTruthyObject : Option JVal → Bool
  | some (.obj _) => true
  | some (.arr _) => true
  | _ => false

/-- The string content of a value when `typeof x === 'string'`. -/
def jAsString : Option JVal → Option String
  | some (.str s) => some s
  | _ => none

/-- The lobby record as `loadState` rebuilds it (timestamps stay the ISO
strings of the state file at this layer). -/
structure StoredLobby where
  id : String
  status : String
  startedAt : String
  closesAt : String
  agentIds : List String
  deriving Repr, DecidableEq

/-- The lobby branch of `loadState` (`src/server/index.mjs:99,108-116`):
`parsed.lobby` must be a truthy object carrying a string `id`; the rebuilt
record takes `status: lobby.status === 'open' ? 'open' : 'open'`, string
timestamps defaulting to `now()`, and the string entries of `agentIds`. -/
def loadStateLobby (parsedLobby : Option JVal) (nowIso : String) : Option StoredLobby :=
  let lobby := if jIsTruthyObject parsedLobby then parsedLobby else none
  match lobby with
  | none => none
  | some l =>
    match jAsString (l.get? "id") with
    | none => none
    | some id =>
      some { id := id,
             status := if jAsString (l.get? "status") = some "open" then "open" else "open",
             startedAt := (jAsString (l.get? "startedAt")).getD nowIso,
             closesAt := (jAsString (l.get? "closesAt")).getD nowIso,
             agentIds := match l.get? "agentIds" with
               | some (.arr xs) => xs.filterMap (fun v => match v with
                   | .str s => some s
                   | _ => none)
               | _ => [] }

/-! Concrete scenarios.  `mkEnv` fixes the external inputs of one
operation: identity shuffles (a legal permutation), a deterministic coin,
permadeath on (the default), and explicit fresh ids. -/

/-- A concrete operation environment. -/
def mkEnv (t : Nat) (aid mid rid lid : String) : Env :=
  { nowMs := t, coin := true, permaDeath := true, shuffle := fun l => l,
    shuffleAgents := fun l => l, newMatchId := mid, newAgentId := aid,
    newRunId := rid, newLobbyId := lid }

/-- Ava joins a fresh server: agent `A` is created, lobby `L1` opens. -/
def exS1 : ArenaState := (arenaJoin (mkEnv 1000 "A" "-" "-" "L1") initState "Ava" "gpt").1

/-- Bex joins: agent `B` is created and queued; the lobby deadline
(1000 + 240000) has not passed, so nothing starts. -/
def exS2 : ArenaState := (arenaJoin (mkEnv 2000 "B" "-" "-" "-") exS1 "Bex" "gpt").1

/-- The lobby readiness timer fires after the deadline: run `R1` over
`[A, B]` starts and match `M1` (`A` vs `B`) goes live. -/
def exS3 : ArenaState := lobbyLoopTick (mkEnv 300000 "-" "M1" "R1" "-") exS2

/-- Cyd joins while `M1` is still running: lobby `L1` is closed, so a new
open lobby `L2` is created holding `C`. -/
def exS4 : ArenaState := (arenaJoin (mkEnv 400000 "C" "-" "-" "L2") exS3 "Cyd" "gpt").1

/-- Dug joins after `L2`'s deadline: the join handler sees the lobby ready
and calls `startTournamentFromLobby`, which replaces the still-running run
`R1` by run `R2` over `[C, D]` while `M1` is still the running match. -/
def exS5 : ArenaState := (arenaJoin (mkEnv 700000 "D" "MX" "R2" "-") exS4 "Dug" "gpt").1

/-- `M1` resolves with forced winner `A`: the winner of the replaced run
`R1` is pushed into run `R2`'s `next`, and the tick starts `M2` (`C` vs
`D`). -/
def exS6 : ArenaState := (resolveMatch (mkEnv 800000 "-" "M2" "-" "-") exS5 "M1" (some "A")).1

/-- Cyd joins the fresh two-agent lobby instead: `[A, B, C]` wait. -/
def byeS3 : ArenaState := (arenaJoin (mkEnv 3000 "C" "-" "-" "-") exS2 "Cyd" "gpt").1

/-- The readiness timer fires: a run over the three participants starts;
its first tick pairs `A` vs `B` and leaves `C` alone in the pool. -/
def byeS4 : ArenaState := lobbyLoopTick (mkEnv 300000 "-" "M1" "R1" "-") byeS3

/-- The number of matches currently in status `running`. -/
def countRunning (s : ArenaState) : Nat :=
  s.matchLog.countP (fun m => m.status == "running")

/-- The comparator shuffles of an environment permute their input; this is
what `[...xs].sort(() => Math.random() - 0.5)` guarantees. -/
def ShufflePerm (env : Env) : Prop :=
  ∀ l : List String, (env.shuffle l).Perm l

/-- The matches an operation appended to the log (operations never remove
log entries). -/
def newMatches (s s' : ArenaState) : List Match :=
  s'.matchLog.drop s.matchLog.length

/-- The participant ids checked out into matches appended by an operation. -/
def newOut (s s' : ArenaState) : List String :=
  ((newMatches s s').map Match.agents).join

/-- The loser of a resolution: the participant the decided winner leaves
behind. -/
def matchLoser (env : Env) (m : Match) (forced : Option String) : String :=
  let aId := m.agents.getD 0 ""
  let bId := m.agents.getD 1 ""
  if decideWinner env m forced = aId then bId else aId

/-- Whether a resolution outcome is the idempotent already-complete reply. -/
def RResult.isAlready : RResult → Bool
  | .already _ => true
  | _ => false

/-- A small roster used by concrete instantiations. -/
def wAgents : List Agent :=
  [⟨"A", "Ava", some "gpt", 0⟩, ⟨"B", "Bex", some "gpt", 0⟩,
   ⟨"C", "Cyd", some "gpt", 0⟩, ⟨"D", "Dug", some "gpt", 0⟩]

/-- A concrete running match between `A` and `B`. -/
def wM1 : Match :=
  { id := "M1", status := "running", agents := ["A", "B"],
    winnerId := none, startedAt := 0, endedAt := none, events := [] }

/-- A concrete state: match `M1` is running and a bracket is mid-round with
`C` still pooled and `D` advanced. -/
def wState : ArenaState :=
  { agents := wAgents, matchLog := [wM1], currentMatchId := some "M1",
    lobby := none, tournamentRun := some ⟨"R", "running", 1, ["A", "B", "C", "D"], ["C"], ["D"]⟩,
    season := ⟨1, "r", 0, [], []⟩, allTime := ⟨[], []⟩ }

/-- A concrete state with an idle match slot and a fresh two-player round. -/
def wState2 : ArenaState :=
  { agents := wAgents, matchLog := [], currentMatchId := none,
    lobby := none, tournamentRun := some ⟨"R", "running", 1, ["C", "D"], ["C", "D"], []⟩,
    season := ⟨1, "r", 0, [], []⟩, allTime := ⟨[], []⟩ }

/-- A persisted lobby document whose recorded status is `closed`. -/
def closedLobbyDoc : List (String × JVal) :=
  [("id", .str "L1"), ("status", .str "closed"), ("startedAt", .str "t0"),
   ("closesAt", .str "t1"), ("agentIds", .arr [.str "a", .str "b"])]

/-! Basic lemmas about counter maps and the list helpers. -/

theorem lookupNum_setNum (m : CountMap) (k : String) (v : Nat) (j : String) :
    lookupNum (setNum m k v) j = if j = k then v else lookupNum m j := by
  induction m with
  | nil =>
    by_cases h : j = k
    · simp [setNum, lookupNum, h]
    · have h2 : ¬ k = j := fun hh => h hh.symm
      simp [setNum, lookupNum, h, h2]
  | cons p rest ih =>
    by_cases hp : p.1 = k
    · subst hp
      by_cases hj : j = p.1
      · simp [setNum, lookupNum, hj]
      · have h2 : ¬ p.1 = j := fun hh => hj hh.symm
        simp [setNum, lookupNum, hj, h2]
    · by_cases hpj : p.1 = j
      · have hjk : ¬ j = k := fun hh => hp (by rw [hpj, hh])
        simp [setNum, lookupNum, hp, hpj, hjk]
      · simp [setNum, lookupNum, hp, hpj, ih]

theorem lookupNum_inc (m : CountMap) (k j : String) :
    lookupNum (inc m k) j =
      if k ≠ "" ∧ j = k then lookupNum m j + 1 else lookupNum m j := by
  unfold inc
  by_cases hk : k = ""
  · simp [hk]
  · rw [if_neg hk, lookupNum_setNum]
    by_cases hj : j = k
    · subst hj; simp [hk]
    · simp [hj]

theorem lookupNum_inc_le (m : CountMap) (k j : String) :
    lookupNum m j ≤ lookupNum (inc m k) j := by
  rw [lookupNum_inc]
  split <;> omega

theorem findMatch?_eq_none {ms : List Match} {mid : String} :
    findMatch? ms mid = none ↔ ∀ m ∈ ms, m.id ≠ mid := by
  induction ms with
  | nil => simp [findMatch?]
  | cons m rest ih => by_cases h : m.id = mid <;> simp [findMatch?, h, ih]

theorem findMatch?_some_id {ms : List Match} {mid : String} {m : Match}
    (h : findMatch? ms mid = some m) : m.id = mid := by
  induction ms with
  | nil => simp [findMatch?] at h
  | cons x rest ih =>
    by_cases hx : x.id = mid
    · simp [findMatch?, hx] at h; rw [← h]; exact hx
    · simp [findMatch?, hx] at h; exact ih h

theorem findMatch?_some_mem {ms : List Match} {mid : String} {m : Match}
    (h : findMatch? ms mid = some m) : m ∈ ms := by
  induction ms with
  | nil => simp [findMatch?] at h
  | cons x rest ih =>
    by_cases hx : x.id = mid
    · simp [findMatch?, hx] at h; simp [h]
    · simp [findMatch?, hx] at h; simp [ih h]

theorem findMatch?_append_left {ms ms2 : List Match} {mid : String} {m : Match}
    (h : findMatch? ms mid = some m) : findMatch? (ms ++ ms2) mid = some m := by
  induction ms with
  | nil => simp [findMatch?] at h
  | cons x rest ih =>
    by_cases hx : x.id = mid <;> simp [findMatch?, hx] at h ⊢
    · exact h
    · exact ih h

theorem findMatch?_append_none {ms ms2 : List Match} {mid : String}
    (h : findMatch? ms mid = none) :
    findMatch? (ms ++ ms2) mid = findMatch? ms2 mid := by
  induction ms with
  | nil => simp
  | cons x rest ih =>
    by_cases hx : x.id = mid <;> simp [findMatch?, hx] at h ⊢
    exact ih h

theorem replaceMatch_map_id {ms : List Match} {mid : String} {m' : Match}
    (h : m'.id = mid) :
    (replaceMatch ms mid m').map Match.id = ms.map Match.id := by
  induction ms with
  | nil => simp [replaceMatch]
  | cons x rest ih =>
    by_cases hx : x.id = mid
    · simp [replaceMatch, hx, h]
    · simp [replaceMatch, hx, ih]

theorem mem_replaceMatch_strong {ms : List Match} {mid : String} {m' x : Match}
    (hn : (ms.map Match.id).Nodup) (hx : x ∈ replaceMatch ms mid m') :
    x = m' ∨ (x ∈ ms ∧ x.id ≠ mid) := by
  induction ms with
  | nil => simp [replaceMatch] at hx
  | cons y rest ih =>
    rw [List.map_cons, List.nodup_cons] at hn
    by_cases hy : y.id = mid
    · simp [replaceMatch, hy] at hx
      rcases hx with hx | hx
      · exact Or.inl hx
      · refine Or.inr ⟨List.mem_cons_of_mem _ hx, ?_⟩
        intro hid
        exact hn.1 (by rw [hy, ← hid]; exact List.mem_map_of_mem _ hx)
    · simp [replaceMatch, hy] at hx
      rcases hx with hx | hx
      · exact Or.inr ⟨by simp [hx], by rw [hx]; exact hy⟩
      · rcases ih hn.2 hx with h | h
        · exact Or.inl h
        · exact Or.inr ⟨List.mem_cons_of_mem _ h.1, h.2⟩

theorem mem_replaceMatch_weak {ms : List Match} {mid : String} {m' x : Match}
    (hx : x ∈ replaceMatch ms mid m') : x = m' ∨ x ∈ ms := by
  induction ms with
  | nil => simp [replaceMatch] at hx
  | cons y rest ih =>
    by_cases hy : y.id = mid <;> simp [replaceMatch, hy] at hx
    · rcases hx with hx | hx
      · exact Or.inl hx
      · exact Or.inr (List.mem_cons_of_mem _ hx)
    · rcases hx with hx | hx
      · exact Or.inr (by simp [hx])
      · rcases ih hx with h | h
        · exact Or.inl h
        · exact Or.inr (List.mem_cons_of_mem _ h)

theorem findMatch?_replaceMatch_self {ms : List Match} {mid : String} {m m' : Match}
    (hf : findMatch? ms mid = some m) (h : m'.id = mid) :
    findMatch? (replaceMatch ms mid m') mid = some m' := by
  induction ms with
  | nil => simp [findMatch?] at hf
  | cons x rest ih =>
    by_cases hx : x.id = mid
    · simp [replaceMatch, hx, findMatch?, h]
    · simp [findMatch?, hx] at hf
      simp [replaceMatch, hx, findMatch?, ih hf]

theorem findAgent?_some_id {ags : List Agent} {id : String} {a : Agent}
    (h : findAgent? ags id = some a) : a.id = id := by
  induction ags with
  | nil => simp [findAgent?] at h
  | cons x rest ih =>
    by_cases hx : x.id = id
    · simp [findAgent?, hx] at h; rw [← h]; exact hx
    · simp [findAgent?, hx] at h; exact ih h

theorem findAgent?_some_mem {ags : List Agent} {id : String} {a : Agent}
    (h : findAgent? ags id = some a) : a ∈ ags := by
  induction ags with
  | nil => simp [findAgent?] at h
  | cons x rest ih =>
    by_cases hx : x.id = id
    · simp [findAgent?, hx] at h; simp [h]
    · simp [findAgent?, hx] at h; simp [ih h]

theorem countP_le_one_same_id (l : List Match) (p : Match → Bool) (c : String)
    (hn : (l.map Match.id).Nodup) (h : ∀ x ∈ l, p x = true → x.id = c) :
    l.countP p ≤ 1 := by
  induction l with
  | nil => simp
  | cons m rest ih =>
    rw [List.map_cons, List.nodup_cons] at hn
    rw [List.countP_cons]
    by_cases hpm : p m = true
    · have hmc := h m (by simp) hpm
      have hzero : rest.countP p = 0 := by
        rw [List.countP_eq_zero]
        intro x hx hpx
        have hxc := h x (List.mem_cons_of_mem _ hx) hpx
        exact hn.1 (by rw [hmc, ← hxc]; exact List.mem_map_of_mem _ hx)
      simp [hpm, hzero]
    · have := ih hn.2 (fun x hx hp => h x (List.mem_cons_of_mem _ hx) hp)
      simp [hpm]
      omega

/-! The inductive invariant of the scheduler state: match ids are distinct,
every match pairs exactly two agents, a match is `running` exactly when
`currentMatchId` designates it, a set pointer designates a running match,
and wins never exceed played in either ledger. -/

structure Inv (s : ArenaState) : Prop where
  nodupIds : (s.matchLog.map Match.id).Nodup
  twoAgents : ∀ m ∈ s.matchLog, ∃ x y, m.agents = [x, y]
  runningPtr : ∀ m ∈ s.matchLog, m.status = "running" → s.currentMatchId = some m.id
  ptrValid : ∀ id, s.currentMatchId = some id →
    ∃ m, findMatch? s.matchLog id = some m ∧ m.status = "running"
  seasonLe : ∀ k, lookupNum s.season.wins k ≤ lookupNum s.season.played k
  allTimeLe : ∀ k, lookupNum s.allTime.wins k ≤ lookupNum s.allTime.played k

theorem Inv.noRunning_of_ptrNone {s : ArenaState} (hinv : Inv s)
    (hptr : s.currentMatchId = none) :
    ∀ m ∈ s.matchLog, m.status ≠ "running" := by
  intro m hm hrun
  have := hinv.runningPtr m hm hrun
  rw [hptr] at this
  exact Option.noConfusion this

theorem getCurrentMatch_eq_some {s : ArenaState} {id : String}
    (h : s.currentMatchId = some id) :
    getCurrentMatch s = findMatch? s.matchLog id := by
  unfold getCurrentMatch
  rw [h]

theorem getCurrentMatch_eq_none {s : ArenaState}
    (h : s.currentMatchId = none) : getCurrentMatch s = none := by
  unfold getCurrentMatch
  rw [h]

theorem Inv.getCurrentMatch_none_iff {s : ArenaState} (hinv : Inv s) :
    getCurrentMatch s = none ↔ s.currentMatchId = none := by
  constructor
  · intro h
    match hp : s.currentMatchId with
    | none => rfl
    | some id =>
      obtain ⟨m, hm, -⟩ := hinv.ptrValid id hp
      rw [getCurrentMatch_eq_some hp, hm] at h
      exact Option.noConfusion h
  · intro h
    exact getCurrentMatch_eq_none h

theorem Inv.countRunning_le_one {s : ArenaState} (hinv : Inv s) :
    s.matchLog.countP (fun m => m.status == "running") ≤ 1 := by
  match hp : s.currentMatchId with
  | none =>
    have : s.matchLog.countP (fun m => m.status == "running") = 0 := by
      rw [List.countP_eq_zero]
      intro m hm hrun
      exact hinv.noRunning_of_ptrNone hp m hm (by simpa using hrun)
    omega
  | some id =>
    refine countP_le_one_same_id _ _ id hinv.nodupIds ?_
    intro x hx hpx
    have hrun : x.status = "running" := by simpa using hpx
    have := hinv.runningPtr x hx hrun
    rw [hp] at this
    exact (Option.some_injective _ this).symm

/-- Invariance is a property of the match log, the pointer and the two
ledgers only; states agreeing there share it. -/
theorem Inv.of_eq_fields {s s' : ArenaState} (hinv : Inv s)
    (h1 : s'.matchLog = s.matchLog) (h2 : s'.currentMatchId = s.currentMatchId)
    (h3 : s'.season = s.season) (h4 : s'.allTime = s.allTime) : Inv s' := by
  refine ⟨?_, ?_, ?_, ?_, ?_, ?_⟩
  · rw [h1]; exact hinv.nodupIds
  · rw [h1]; exact hinv.twoAgents
  · rw [h1, h2]; exact hinv.runningPtr
  · rw [h1, h2]; exact hinv.ptrValid
  · rw [h3]; exact hinv.seasonLe
  · rw [h4]; exact hinv.allTimeLe

theorem inv_init : Inv initState := by
  refine ⟨?_, ?_, ?_, ?_, ?_, ?_⟩ <;> simp [initState, lookupNum]

/-! Preservation of the invariant by every scheduler operation. -/

theorem FreshMatchId.of_eq {env : Env} {s s' : ArenaState}
    (h : s'.matchLog = s.matchLog) (hf : FreshMatchId env s) : FreshMatchId env s' := by
  unfold FreshMatchId at hf ⊢
  rw [h]
  exact hf

theorem inv_registerMatch {s : ArenaState} {m : Match} (hinv : Inv s)
    (hptr : s.currentMatchId = none)
    (hfresh : m.id ∉ s.matchLog.map Match.id)
    (hstat : m.status = "running") (x y : String) (hag : m.agents = [x, y]) :
    Inv (registerMatch s m) := by
  have hnone : ∀ mm ∈ s.matchLog, mm.id ≠ m.id := by
    intro mm hmm heq
    exact hfresh (heq ▸ List.mem_map_of_mem Match.id hmm)
  refine ⟨?_, ?_, ?_, ?_, ?_, ?_⟩
  · simp only [registerMatch, List.map_append, List.map_cons, List.map_nil]
    refine List.Nodup.append hinv.nodupIds (List.nodup_singleton _) ?_
    intro a ha hb
    rw [List.mem_singleton] at hb
    subst hb
    exact hfresh ha
  · intro mm hmm
    simp only [registerMatch, List.mem_append, List.mem_singleton] at hmm
    rcases hmm with hmm | rfl
    · exact hinv.twoAgents mm hmm
    · exact ⟨x, y, hag⟩
  · intro mm hmm hrun
    simp only [registerMatch, List.mem_append, List.mem_singleton] at hmm
    rcases hmm with hmm | rfl
    · have := hinv.runningPtr mm hmm hrun
      rw [hptr] at this
      exact Option.noConfusion this
    · rfl
  · intro id hid
    simp only [registerMatch] at hid
    rw [Option.some.injEq] at hid
    subst hid
    refine ⟨m, ?_, hstat⟩
    show findMatch? (s.matchLog ++ [m]) m.id = some m
    rw [findMatch?_append_none (findMatch?_eq_none.mpr hnone)]
    simp [findMatch?]
  · exact hinv.seasonLe
  · exact hinv.allTimeLe

theorem inv_createMatch (env : Env) (aId bId label : String) {s : ArenaState}
    (hinv : Inv s) (hptr : s.currentMatchId = none) (hfresh : FreshMatchId env s) :
    Inv (createMatch env aId bId label s).1 := by
  unfold createMatch
  cases hfa : findAgent? s.agents aId with
  | none => exact hinv
  | some a =>
    cases hfb : findAgent? s.agents bId with
    | none => exact hinv
    | some b => exact inv_registerMatch hinv hptr hfresh rfl a.id b.id rfl

theorem inv_tickFuel (fuel : Nat) (env : Env) {s : ArenaState} (hinv : Inv s)
    (hfresh : FreshMatchId env s) : Inv (tickFuel fuel env s) := by
  induction fuel generalizing s with
  | zero => exact hinv
  | succ n ih =>
    cases hrun : s.tournamentRun with
    | none => simpa only [tickFuel, hrun] using hinv
    | some t =>
      simp only [tickFuel, hrun]
      by_cases hst : t.status ≠ "running"
      · simp only [if_pos hst]
        exact hinv
      simp only [if_neg hst]
      by_cases hcur : (getCurrentMatch s).isSome
      · simp only [hcur, if_true]
        exact hinv
      simp only [hcur, if_false]
      have hptrnone : s.currentMatchId = none := by
        apply hinv.getCurrentMatch_none_iff.mp
        cases hgc : getCurrentMatch s
        · rfl
        · rw [hgc] at hcur
          simp at hcur
      by_cases hchamp : t.pool = [] ∧ t.next.length = 1
      · simp only [if_pos hchamp]
        exact hinv.of_eq_fields rfl rfl rfl rfl
      simp only [if_neg hchamp]
      generalize (if t.pool = []
        then { t with round := t.round + 1, pool := env.shuffle t.next, next := [] }
        else t : TournamentRun) = t1
      by_cases hbye : t1.pool.length = 1
      · simp only [if_pos hbye]
        exact ih (hinv.of_eq_fields rfl rfl rfl rfl) (hfresh.of_eq rfl)
      simp only [if_neg hbye]
      cases hp : t1.pool with
      | nil => exact hinv.of_eq_fields rfl rfl rfl rfl
      | cons a tl =>
        cases htl : tl with
        | nil => exact hinv.of_eq_fields rfl rfl rfl rfl
        | cons b rest =>
          by_cases hab : a = "" ∨ b = ""
          · simp only [if_pos hab]
            exact hinv.of_eq_fields rfl rfl rfl rfl
          simp only [if_neg hab]
          exact inv_createMatch env a b _ (hinv.of_eq_fields rfl rfl rfl rfl)
            hptrnone (hfresh.of_eq rfl)

theorem inv_tickTournament (env : Env) {s : ArenaState} (hinv : Inv s)
    (hfresh : FreshMatchId env s) : Inv (tickTournament env s) :=
  inv_tickFuel 3 env hinv hfresh

theorem inv_startTournamentFromLobby (env : Env) {s : ArenaState} (hinv : Inv s)
    (hfresh : FreshMatchId env s) : Inv (startTournamentFromLobby env s).1 := by
  unfold startTournamentFromLobby
  cases hl : s.lobby with
  | none => exact hinv
  | some lobby =>
    by_cases hst : lobby.status ≠ "open"
    · simp only [if_pos hst]
      exact hinv
    simp only [if_neg hst]
    by_cases hmin :
        (lobby.agentIds.filter (fun id => (findAgent? s.agents id).isSome)).length
          < LOBBY_MIN_AGENTS
    · simp only [if_pos hmin]
      exact hinv
    simp only [if_neg hmin]
    exact inv_tickTournament env (hinv.of_eq_fields rfl rfl rfl rfl) (hfresh.of_eq rfl)

theorem inv_lobbyLoopTick (env : Env) {s : ArenaState} (hinv : Inv s)
    (hfresh : FreshMatchId env s) : Inv (lobbyLoopTick env s) := by
  unfold lobbyLoopTick
  by_cases h1 : runIsRunning s = true
  · simp only [h1, if_true]
    exact hinv
  simp only [h1, if_false]
  by_cases h2 : (getCurrentMatch s).isSome
  · simp only [h2, if_true]
    exact hinv
  simp only [h2, if_false]
  by_cases h3 : lobbyReadyToStart env s = true
  · simp only [h3, if_true]
    exact inv_startTournamentFromLobby env hinv hfresh
  · simp only [h3, if_false]
    exact hinv

theorem lobbyAddAgent_core (env : Env) (aid : String) (s : ArenaState) :
    (lobbyAddAgent env aid s).matchLog = s.matchLog ∧
    (lobbyAddAgent env aid s).currentMatchId = s.currentMatchId ∧
    (lobbyAddAgent env aid s).season = s.season ∧
    (lobbyAddAgent env aid s).allTime = s.allTime ∧
    (lobbyAddAgent env aid s).agents = s.agents ∧
    (lobbyAddAgent env aid s).tournamentRun = s.tournamentRun := by
  unfold lobbyAddAgent ensureLobby
  cases hl : s.lobby with
  | none =>
    dsimp only
    split_ifs <;> exact ⟨rfl, rfl, rfl, rfl, rfl, rfl⟩
  | some l =>
    dsimp only
    split_ifs <;> exact ⟨rfl, rfl, rfl, rfl, rfl, rfl⟩

theorem inv_arenaJoin (env : Env) (name llm : String) {s : ArenaState}
    (hinv : Inv s) (hfresh : FreshMatchId env s) :
    Inv (arenaJoin env s name llm).1 := by
  unfold arenaJoin
  by_cases h1 : jsTrim name = "" ∨ 64 < (jsTrim name).length
  · simp only [if_pos h1]
    exact hinv
  simp only [if_neg h1]
  by_cases h2 : jsTrim llm = "" ∨ 32 < (jsTrim llm).length
  · simp only [if_pos h2]
    exact hinv
  simp only [if_neg h2]
  cases hex : s.agents.find? (fun a => jsToLower a.name == jsToLower (jsTrim name)) with
  | some existing =>
    by_cases hup : existing.llm.getD "" = "" ∨ existing.llm ≠ some (jsTrim llm)
    · simp only [if_pos hup]
      exact hinv.of_eq_fields rfl rfl rfl rfl
    · simp only [if_neg hup]
      exact hinv
  | none =>
    simp only
    set s1 : ArenaState := { s with agents := s.agents ++
      [{ id := env.newAgentId, name := jsTrim name, llm := some (jsTrim llm),
         createdAt := env.nowMs }] } with hs1
    have hinv1 : Inv s1 := hinv.of_eq_fields rfl rfl rfl rfl
    set s2 := lobbyAddAgent env env.newAgentId s1 with hs2
    obtain ⟨e1, e2, e3, e4, -, -⟩ := lobbyAddAgent_core env env.newAgentId s1
    have hinv2 : Inv s2 := hinv1.of_eq_fields e1 e2 e3 e4
    have hfresh2 : FreshMatchId env s2 := (hfresh.of_eq rfl).of_eq e1
    by_cases hready : lobbyReadyToStart env s2 = true
    · simp only [hready, if_true]
      exact inv_startTournamentFromLobby env hinv2 hfresh2
    · simp only [hready, if_false]
      exact hinv2

theorem inv_startQuickMatchWith (env : Env) (picked : List String) {s : ArenaState}
    (hinv : Inv s) (hfresh : FreshMatchId env s) :
    Inv (startQuickMatchWith env s picked).1 := by
  unfold startQuickMatchWith
  by_cases h1 : picked.length ≠ 2 ∨ picked.getD 0 "" = picked.getD 1 ""
  · simp only [if_pos h1]
    exact hinv
  simp only [if_neg h1]
  cases hfa : findAgent? s.agents (picked.getD 0 "") with
  | none => exact hinv
  | some a =>
    cases hfb : findAgent? s.agents (picked.getD 1 "") with
    | none => exact hinv
    | some b =>
      cases hcur : getCurrentMatch s with
      | some cur =>
        by_cases hrc : cur.status = "running"
        · simp only [if_pos hrc]
          exact hinv
        · exfalso
          cases hp : s.currentMatchId with
          | none => rw [getCurrentMatch_eq_none hp] at hcur; exact Option.noConfusion hcur
          | some id =>
            obtain ⟨mm, hmm, hrunmm⟩ := hinv.ptrValid id hp
            rw [getCurrentMatch_eq_some hp, hmm] at hcur
            rw [Option.some.injEq] at hcur
            subst hcur
            exact hrc hrunmm
      | none =>
        have hptr := hinv.getCurrentMatch_none_iff.mp hcur
        exact inv_registerMatch hinv hptr hfresh rfl a.id b.id rfl

theorem inv_startQuickMatch (env : Env) (aId bId : String) {s : ArenaState}
    (hinv : Inv s) (hfresh : FreshMatchId env s) :
    Inv (startQuickMatch env s aId bId).1 := by
  unfold startQuickMatch
  by_cases hids : [jsTrim aId, jsTrim bId].filter (fun x => x ≠ "") = []
  · simp only [if_pos hids]
    by_cases hn : s.agents.length < 2
    · simp only [if_pos hn]
      exact hinv
    simp only [if_neg hn]
    cases env.shuffleAgents s.agents with
    | nil => exact hinv
    | cons xx tl =>
      cases tl with
      | nil => exact hinv
      | cons yy rest => exact inv_startQuickMatchWith env _ hinv hfresh
  · simp only [if_neg hids]
    exact inv_startQuickMatchWith env _ hinv hfresh

theorem decideWinner_mem (env : Env) {m : Match} {x y : String}
    (hag : m.agents = [x, y]) (forced : Option String) :
    decideWinner env m forced = x ∨ decideWinner env m forced = y := by
  have h0 : m.agents.getD 0 "" = x := by rw [hag]; rfl
  have h1 : m.agents.getD 1 "" = y := by rw [hag]; rfl
  unfold decideWinner
  cases forced with
  | none =>
    dsimp only
    split
    · exact Or.inl h0
    · exact Or.inr h1
  | some w =>
    dsimp only
    split
    next hv =>
      have h2 := hv.2
      rw [hag] at h2
      simpa using h2
    next =>
      split
      · exact Or.inl h0
      · exact Or.inr h1

theorem ledger_le_after_inc {wins played : CountMap} {x y w : String}
    (hle : ∀ k, lookupNum wins k ≤ lookupNum played k)
    (hw : w = x ∨ w = y) :
    ∀ k, lookupNum (inc wins w) k ≤ lookupNum (inc (inc played x) y) k := by
  intro k
  have hbase := hle k
  by_cases hk : w ≠ "" ∧ k = w
  · rw [lookupNum_inc, if_pos hk]
    rcases hw with rfl | rfl
    · have h1 : lookupNum (inc played w) k = lookupNum played k + 1 := by
        rw [lookupNum_inc, if_pos hk]
      have h2 := lookupNum_inc_le (inc played w) y k
      omega
    · have h1 := lookupNum_inc_le played x k
      have h2 : lookupNum (inc (inc played x) w) k = lookupNum (inc played x) k + 1 := by
        rw [lookupNum_inc, if_pos hk]
      omega
  · rw [lookupNum_inc, if_neg hk]
    have h1 := lookupNum_inc_le played x k
    have h2 := lookupNum_inc_le (inc played x) y k
    omega

theorem resolveRecord_id (env : Env) (s : ArenaState) (m : Match)
    (forced : Option String) : (resolveRecord env s m forced).id = m.id := rfl

theorem resolveRecord_status (env : Env) (s : ArenaState) (m : Match)
    (forced : Option String) : (resolveRecord env s m forced).status = "complete" := rfl

theorem resolveRecord_agents (env : Env) (s : ArenaState) (m : Match)
    (forced : Option String) : (resolveRecord env s m forced).agents = m.agents := rfl

theorem resolveRecord_winnerId (env : Env) (s : ArenaState) (m : Match)
    (forced : Option String) :
    (resolveRecord env s m forced).winnerId = some (decideWinner env m forced) := rfl

theorem resolveRecord_endedAt (env : Env) (s : ArenaState) (m : Match)
    (forced : Option String) : (resolveRecord env s m forced).endedAt = some env.nowMs := rfl

theorem inv_resolveState1 (env : Env) (mid : String) (forced : Option String)
    {s : ArenaState} {m : Match} (hinv : Inv s)
    (hfm : findMatch? s.matchLog mid = some m) (hrunm : m.status = "running") :
    Inv (resolveState1 env s mid m forced) := by
  have hmem := findMatch?_some_mem hfm
  have hmid := findMatch?_some_id hfm
  have hptr : s.currentMatchId = some mid := by
    have := hinv.runningPtr m hmem hrunm
    rw [hmid] at this
    exact this
  obtain ⟨x, y, hag⟩ := hinv.twoAgents m hmem
  have hrid : (resolveRecord env s m forced).id = mid := by
    rw [resolveRecord_id, hmid]
  have hptr1 : (resolveState1 env s mid m forced).currentMatchId = none := by
    show (if s.currentMatchId = some mid then none else s.currentMatchId) = none
    rw [if_pos hptr]
  refine ⟨?_, ?_, ?_, ?_, ?_, ?_⟩
  · show (List.map Match.id
      (replaceMatch s.matchLog mid (resolveRecord env s m forced))).Nodup
    rw [replaceMatch_map_id hrid]
    exact hinv.nodupIds
  · intro mm hmm
    rcases mem_replaceMatch_weak hmm with rfl | hmm2
    · exact ⟨x, y, by rw [resolveRecord_agents, hag]⟩
    · exact hinv.twoAgents mm hmm2
  · intro mm hmm hrunmm
    exfalso
    rcases mem_replaceMatch_strong hinv.nodupIds hmm with rfl | ⟨hmm2, hne⟩
    · rw [resolveRecord_status] at hrunmm
      exact absurd hrunmm (by decide)
    · have h2 := hinv.runningPtr mm hmm2 hrunmm
      rw [hptr] at h2
      exact hne (Option.some_injective _ h2.symm)
  · intro id hid
    rw [hptr1] at hid
    exact Option.noConfusion hid
  · have hx0 : m.agents.getD 0 "" = x := by rw [hag]; rfl
    have hy1 : m.agents.getD 1 "" = y := by rw [hag]; rfl
    intro k
    show lookupNum (inc s.season.wins (decideWinner env m forced)) k ≤
      lookupNum (inc (inc s.season.played (m.agents.getD 0 "")) (m.agents.getD 1 "")) k
    rw [hx0, hy1]
    exact ledger_le_after_inc hinv.seasonLe (decideWinner_mem env hag forced) k
  · have hx0 : m.agents.getD 0 "" = x := by rw [hag]; rfl
    have hy1 : m.agents.getD 1 "" = y := by rw [hag]; rfl
    intro k
    show lookupNum (inc s.allTime.wins (decideWinner env m forced)) k ≤
      lookupNum (inc (inc s.allTime.played (m.agents.getD 0 "")) (m.agents.getD 1 "")) k
    rw [hx0, hy1]
    exact ledger_le_after_inc hinv.allTimeLe (decideWinner_mem env hag forced) k

theorem inv_resolveMatch (env : Env) (mid : String) (forced : Option String)
    {s : ArenaState} (hinv : Inv s) (hfresh : FreshMatchId env s) :
    Inv (resolveMatch env s mid forced).1 := by
  unfold resolveMatch
  cases hfm : findMatch? s.matchLog mid with
  | none => exact hinv
  | some m =>
    by_cases hst : m.status ≠ "running"
    · simp only [if_pos hst]
      exact hinv
    simp only [if_neg hst]
    push_neg at hst
    have hinv1 := inv_resolveState1 env mid forced hinv hfm hst
    have hfresh1 : FreshMatchId env (resolveState1 env s mid m forced) := by
      unfold FreshMatchId at hfresh ⊢
      show env.newMatchId ∉
        (replaceMatch s.matchLog mid (resolveRecord env s m forced)).map Match.id
      rw [replaceMatch_map_id (by rw [resolveRecord_id, findMatch?_some_id hfm])]
      exact hfresh
    by_cases hr : runIsRunning (resolveState1 env s mid m forced) = true
    · simp only [hr, if_true]
      exact inv_tickTournament env hinv1 hfresh1
    · simp only [hr, if_false]
      exact hinv1

theorem inv_resetSeason (env : Env) {s : ArenaState} (hinv : Inv s) :
    Inv (resetSeason env s) := by
  refine ⟨hinv.nodupIds, hinv.twoAgents, hinv.runningPtr, hinv.ptrValid, ?_, hinv.allTimeLe⟩
  intro k
  show lookupNum ([] : CountMap) k ≤ lookupNum ([] : CountMap) k
  exact le_refl _

theorem inv_restartArena (env : Env) (wipe : Bool) {s : ArenaState} (hinv : Inv s) :
    Inv (restartArena env wipe s) := by
  refine ⟨?_, ?_, ?_, ?_, ?_, ?_⟩
  · show (List.map Match.id []).Nodup
    simp
  · intro mm hmm
    simp [restartArena] at hmm
  · intro mm hmm
    simp [restartArena] at hmm
  · intro id hid
    simp [restartArena] at hid
  · intro k
    show lookupNum ([] : CountMap) k ≤ lookupNum ([] : CountMap) k
    exact le_refl _
  · intro k
    show lookupNum (if wipe then ({ wins := [], played := [] } : AllTime) else s.allTime).wins k ≤
      lookupNum (if wipe then ({ wins := [], played := [] } : AllTime) else s.allTime).played k
    by_cases hw : wipe = true
    · simp [hw, lookupNum]
    · simp only [hw, if_false]
      exact hinv.allTimeLe k

theorem inv_step {s s' : ArenaState} (h : Step s s') (hinv : Inv s) : Inv s' := by
  cases h with
  | join env name llm hf => exact inv_arenaJoin env name llm hinv hf
  | quickStart env aId bId hf => exact inv_startQuickMatch env aId bId hinv hf
  | lobbyTick env hf => exact inv_lobbyLoopTick env hinv hf
  | tick env hf => exact inv_tickTournament env hinv hf
  | resolve env mid forced hf => exact inv_resolveMatch env mid forced hinv hf
  | seasonReset env => exact inv_resetSeason env hinv
  | restart env wipe => exact inv_restartArena env wipe hinv

theorem inv_reachable {s : ArenaState} (h : Reachable s) : Inv s := by
  induction h with
  | refl => exact inv_init
  | tail hst hstep ih => exact inv_step hstep ih

/-! Bracket conservation.  A tick moves ids between `pool`, `next` and the
agents list of the match it creates; a resolution moves the winner into
`next` and drops the loser.  Neither duplicates nor invents ids. -/

theorem replaceMatch_length (ms : List Match) (mid : String) (m' : Match) :
    (replaceMatch ms mid m').length = ms.length := by
  induction ms with
  | nil => rfl
  | cons x rest ih =>
    by_cases hx : x.id = mid <;> simp [replaceMatch, hx, ih]

theorem findAgent?_filter_ne {ags : List Agent} {id lid : String} (h : id ≠ lid) :
    findAgent? (ags.filter (fun x => x.id ≠ lid)) id = findAgent? ags id := by
  induction ags with
  | nil => rfl
  | cons a rest ih =>
    by_cases ha : a.id = lid
    · have hfilter : decide (a.id ≠ lid) = false := by simp [ha]
      have haid : a.id ≠ id := fun hh => h (by rw [← hh, ha])
      simp only [List.filter_cons, hfilter, if_false]
      rw [findAgent?, if_neg haid]
      exact ih
    · have hfilter : decide (a.id ≠ lid) = true := by simp [ha]
      simp only [List.filter_cons, hfilter, if_true]
      by_cases haid : a.id = id
      · rw [findAgent?, if_pos haid, findAgent?, if_pos haid]
      · rw [findAgent?, if_neg haid, findAgent?, if_neg haid]
        exact ih

theorem pool_singleton_of_length_one {l : List String} (h : l.length = 1) :
    l = [l.headD ""] := by
  cases l with
  | nil => simp at h
  | cons a tl =>
    cases tl with
    | nil => rfl
    | cons b tl2 => simp at h

theorem newOut_of_log_eq {s s' : ArenaState} (hlog : s'.matchLog = s.matchLog) :
    newOut s s' = [] := by
  unfold newOut newMatches
  rw [hlog, List.drop_length]
  rfl

theorem newOut_registerMatch (s s2 : ArenaState) (m : Match)
    (hlog : s2.matchLog = s.matchLog) :
    newOut s (registerMatch s2 m) = m.agents := by
  unfold newOut newMatches registerMatch
  dsimp only
  rw [hlog, List.drop_left]
  simp

theorem tickFuel_conserves (fuel : Nat) (env : Env) (hperm : ShufflePerm env) :
    ∀ (s : ArenaState) (t : TournamentRun), s.tournamentRun = some t →
    t.status = "running" →
    (∀ id ∈ t.pool ++ t.next, id ≠ "" ∧ (findAgent? s.agents id).isSome) →
    runParticipants (tickFuel fuel env s) = t.participants ∧
    (runPool (tickFuel fuel env s) ++ runNext (tickFuel fuel env s)
        ++ newOut s (tickFuel fuel env s)).Perm (t.pool ++ t.next) := by
  induction fuel with
  | zero =>
    intro s t hrun hts hval
    refine ⟨by simp [tickFuel, runParticipants, hrun], ?_⟩
    rw [show tickFuel 0 env s = s from rfl, newOut_of_log_eq rfl]
    simp [runPool, runNext, hrun]
  | succ n ih =>
    intro s t hrun hts hval
    have hnst : ¬ (t.status ≠ "running") := by simp [hts]
    simp only [tickFuel, hrun, if_neg hnst]
    by_cases hcur : (getCurrentMatch s).isSome = true
    · simp only [hcur, if_true]
      constructor
      · simp [runParticipants, hrun]
      · simp only [runPool, runNext, newOut, newMatches, hrun, List.drop_length,
          List.map_nil, List.flatten_nil, List.append_nil]
        exact List.Perm.refl _
    simp only [Bool.not_eq_true] at hcur
    simp only [hcur, Bool.false_eq_true, if_false]
    by_cases hchamp : t.pool = [] ∧ t.next.length = 1
    · simp only [if_pos hchamp]
      constructor
      · simp [runParticipants]
      · simp only [runPool, runNext, newOut, newMatches, List.drop_length,
          List.map_nil, List.flatten_nil, List.append_nil]
        exact List.Perm.refl _
    simp only [if_neg hchamp]
    generalize ht1 : (if t.pool = []
      then { t with round := t.round + 1, pool := env.shuffle t.next, next := [] }
      else t : TournamentRun) = t1
    have hprops : t1.status = "running" ∧ t1.participants = t.participants ∧
        (t1.pool ++ t1.next).Perm (t.pool ++ t.next) ∧
        (∀ id ∈ t1.pool ++ t1.next, id ≠ "" ∧ (findAgent? s.agents id).isSome) := by
      rw [← ht1]
      by_cases hpool : t.pool = []
      · rw [if_pos hpool]
        refine ⟨hts, rfl, ?_, ?_⟩
        · show (env.shuffle t.next ++ []).Perm (t.pool ++ t.next)
          rw [hpool]
          simpa using hperm t.next
        · intro id hid
          apply hval
          simp only [List.mem_append] at hid ⊢
          rcases hid with hid | hid
          · exact Or.inr ((hperm t.next).mem_iff.mp hid)
          · simp at hid
      · rw [if_neg hpool]
        exact ⟨hts, rfl, List.Perm.refl _, hval⟩
    obtain ⟨ht1s, ht1p, ht1perm, ht1val⟩ := hprops
    by_cases hbye : t1.pool.length = 1
    · rw [if_pos hbye]
      have hpool1 : t1.pool = [t1.pool.headD ""] := pool_singleton_of_length_one hbye
      have hmemhd : t1.pool.headD "" ∈ t1.pool ++ t1.next := by
        rw [List.mem_append, hpool1]
        exact Or.inl (by simp)
      have hval2 : ∀ id ∈ ([] : List String) ++ (t1.next ++ [t1.pool.headD ""]),
          id ≠ "" ∧ (findAgent? s.agents id).isSome := by
        intro id hid
        simp only [List.nil_append, List.mem_append, List.mem_singleton] at hid
        rcases hid with hid | rfl
        · exact ht1val id (by simp [hid])
        · exact ht1val _ hmemhd
      obtain ⟨hc1, hc2⟩ := ih { s with tournamentRun := some { t1 with
          next := t1.next ++ [t1.pool.headD ""], pool := [] } }
        { t1 with next := t1.next ++ [t1.pool.headD ""], pool := [] }
        rfl ht1s hval2
      constructor
      · exact hc1.trans ht1p
      · refine hc2.trans ?_
        show (([] : List String) ++ (t1.next ++ [t1.pool.headD ""])).Perm (t.pool ++ t.next)
        refine List.Perm.trans ?_ ht1perm
        conv_rhs => rw [hpool1]
        simpa using List.perm_append_comm
    rw [if_neg hbye]
    cases hp : t1.pool with
    | nil =>
      constructor
      · simp [runParticipants, ht1p]
      · have h2 : t1.next.Perm (t.pool ++ t.next) := by
          have h3 := ht1perm
          rw [hp] at h3
          simpa using h3
        simp only [runPool, runNext, newOut, newMatches, List.drop_length,
          List.map_nil, List.flatten_nil, List.append_nil]
        rw [hp]
        simpa using h2
    | cons a tl =>
      cases htl : tl with
      | nil =>
        exfalso
        rw [hp, htl] at hbye
        simp at hbye
      | cons b rest =>
        subst htl
        have hamem : a ∈ t1.pool ++ t1.next := by rw [hp]; simp
        have hbmem : b ∈ t1.pool ++ t1.next := by rw [hp]; simp
        obtain ⟨hane, hasome⟩ := ht1val a hamem
        obtain ⟨hbne, hbsome⟩ := ht1val b hbmem
        have hab : ¬ (a = "" ∨ b = "") := by
          intro hh
          rcases hh with hh | hh
          · exact hane hh
          · exact hbne hh
        simp only [if_neg hab]
        obtain ⟨agA, hagA⟩ := Option.isSome_iff_exists.mp hasome
        obtain ⟨agB, hagB⟩ := Option.isSome_iff_exists.mp hbsome
        have hAid := findAgent?_some_id hagA
        have hBid := findAgent?_some_id hagB
        unfold createMatch
        rw [hagA, hagB]
        constructor
        · simp [runParticipants, registerMatch, ht1p]
        · simp only [registerMatch, runPool, runNext, newOut, newMatches]
          rw [List.drop_left]
          simp only [List.map_cons, List.map_nil, List.flatten, List.append_nil,
            List.nil_append]
          rw [hAid, hBid]
          refine List.Perm.trans ?_ ht1perm
          rw [hp]
          exact List.perm_append_comm

theorem winner_loser_cases (env : Env) {m : Match} {x y : String}
    (hag : m.agents = [x, y]) (forced : Option String) :
    (decideWinner env m forced = x ∧ matchLoser env m forced = y) ∨
    (decideWinner env m forced = y ∧ matchLoser env m forced = x) := by
  have haid : m.agents.getD 0 "" = x := by rw [hag]; rfl
  have hbid : m.agents.getD 1 "" = y := by rw [hag]; rfl
  unfold matchLoser
  rw [haid, hbid]
  by_cases hwx : decideWinner env m forced = x
  · left
    exact ⟨hwx, by rw [if_pos hwx]⟩
  · rcases decideWinner_mem env hag forced with hw | hw
    · exact absurd hw hwx
    · right
      exact ⟨hw, by rw [if_neg hwx]⟩

theorem resolveMatch_conserves (env : Env) (hperm : ShufflePerm env)
    (s : ArenaState) (t : TournamentRun) (mid : String) (forced : Option String)
    (m : Match) (x y : String)
    (hrun : s.tournamentRun = some t) (hts : t.status = "running")
    (hfm : findMatch? s.matchLog mid = some m) (hm : m.status = "running")
    (hag : m.agents = [x, y]) (hxn0 : x ≠ "") (hyn0 : y ≠ "") (hxyne : x ≠ y)
    (hxr : (findAgent? s.agents x).isSome) (hyr : (findAgent? s.agents y).isSome)
    (hxn : x ∉ t.pool ++ t.next) (hyn : y ∉ t.pool ++ t.next)
    (hval : ∀ id ∈ t.pool ++ t.next, id ≠ "" ∧ (findAgent? s.agents id).isSome) :
    runParticipants (resolveMatch env s mid forced).1 = t.participants ∧
    (runPool (resolveMatch env s mid forced).1 ++ runNext (resolveMatch env s mid forced).1
      ++ newOut s (resolveMatch env s mid forced).1
      ++ [matchLoser env m forced]).Perm (t.pool ++ t.next ++ [x, y]) := by
  have hwl := winner_loser_cases env hag forced
  have hwmem : decideWinner env m forced = x ∨ decideWinner env m forced = y :=
    decideWinner_mem env hag forced
  have hlmem : matchLoser env m forced = x ∨ matchLoser env m forced = y := by
    rcases hwl with ⟨-, hl⟩ | ⟨-, hl⟩
    · exact Or.inr hl
    · exact Or.inl hl
  have hwln : decideWinner env m forced ≠ matchLoser env m forced := by
    rcases hwl with ⟨hw, hl⟩ | ⟨hw, hl⟩
    · rw [hw, hl]; exact hxyne
    · rw [hw, hl]; exact fun hh => hxyne hh.symm
  -- fields of the pre-tick state
  have hrun1 : (resolveState1 env s mid m forced).tournamentRun
      = some { t with next := t.next ++ [decideWinner env m forced] } := by
    show (match s.tournamentRun with
      | some t0 => if t0.status = "running"
          then some { t0 with next := t0.next ++ [decideWinner env m forced] }
          else some t0
      | none => none) = _
    rw [hrun]
    simp only [if_pos hts]
  have hlog1 : (resolveState1 env s mid m forced).matchLog
      = replaceMatch s.matchLog mid (resolveRecord env s m forced) := rfl
  have hfind1 : ∀ id, id ≠ matchLoser env m forced →
      findAgent? (resolveState1 env s mid m forced).agents id = findAgent? s.agents id := by
    intro id hid
    show findAgent? (if env.permaDeath
      then s.agents.filter (fun ag => ag.id ≠ matchLoser env m forced)
      else s.agents) id = findAgent? s.agents id
    by_cases hpd : env.permaDeath = true
    · rw [if_pos hpd]
      exact findAgent?_filter_ne hid
    · rw [if_neg hpd]
  have hrr : runIsRunning (resolveState1 env s mid m forced) = true := by
    unfold runIsRunning
    rw [hrun1]
    simp [hts]
  have hval1 : ∀ id ∈ t.pool ++ (t.next ++ [decideWinner env m forced]),
      id ≠ "" ∧ (findAgent? (resolveState1 env s mid m forced).agents id).isSome := by
    intro id hid
    simp only [List.mem_append, List.mem_singleton] at hid
    rcases hid with hid | hid | rfl
    · have hmem : id ∈ t.pool ++ t.next := by simp [hid]
      obtain ⟨h1, h2⟩ := hval id hmem
      have hne : id ≠ matchLoser env m forced := by
        intro hh
        rcases hlmem with hl | hl
        · exact hxn (by rw [← hl, ← hh]; simp [hid])
        · exact hyn (by rw [← hl, ← hh]; simp [hid])
      rw [hfind1 id hne]
      exact ⟨h1, h2⟩
    · have hmem : id ∈ t.pool ++ t.next := by simp [hid]
      obtain ⟨h1, h2⟩ := hval id hmem
      have hne : id ≠ matchLoser env m forced := by
        intro hh
        rcases hlmem with hl | hl
        · exact hxn (by rw [← hl, ← hh]; simp [hid])
        · exact hyn (by rw [← hl, ← hh]; simp [hid])
      rw [hfind1 id hne]
      exact ⟨h1, h2⟩
    · rw [hfind1 _ hwln]
      rcases hwmem with hw | hw <;> rw [hw]
      · exact ⟨hxn0, hxr⟩
      · exact ⟨hyn0, hyr⟩
  obtain ⟨hc1, hc2⟩ := tickFuel_conserves 3 env hperm (resolveState1 env s mid m forced)
    { t with next := t.next ++ [decideWinner env m forced] } hrun1 hts hval1
  -- reduce resolveMatch to the tick of the pre-tick state
  have hres : (resolveMatch env s mid forced).1
      = tickFuel 3 env (resolveState1 env s mid m forced) := by
    unfold resolveMatch
    simp only [hfm]
    have hnst : ¬ (m.status ≠ "running") := by simp [hm]
    rw [if_neg hnst]
    dsimp only
    rw [hrr, if_pos rfl]
    rfl
  rw [hres]
  constructor
  · exact hc1
  · have hnewEq : newOut s (tickFuel 3 env (resolveState1 env s mid m forced))
        = newOut (resolveState1 env s mid m forced)
            (tickFuel 3 env (resolveState1 env s mid m forced)) := by
      unfold newOut newMatches
      rw [hlog1, replaceMatch_length]
    rw [hnewEq]
    refine List.Perm.trans (hc2.append_right [matchLoser env m forced]) ?_
    have hassoc : (t.pool ++ (t.next ++ [decideWinner env m forced]))
        ++ [matchLoser env m forced]
        = (t.pool ++ t.next) ++ [decideWinner env m forced, matchLoser env m forced] := by
      simp [List.append_assoc]
    rw [hassoc]
    show ((t.pool ++ t.next) ++ [decideWinner env m forced, matchLoser env m forced]).Perm
      ((t.pool ++ t.next) ++ [x, y])
    refine List.Perm.append_left _ ?_
    rcases hwl with ⟨hw, hl⟩ | ⟨hw, hl⟩
    · rw [hw, hl]
    · rw [hw, hl]
      exact List.Perm.swap x y []

/-! Frame lemmas: a bracket tick never touches the roster, the ledgers or
the lobby, and only appends to the match log; `resolveMatch` on a running
match reduces to its synchronous mutations followed by the tick. -/

theorem tickFuel_frame (fuel : Nat) (env : Env) :
    ∀ s : ArenaState,
    (tickFuel fuel env s).agents = s.agents ∧
    (tickFuel fuel env s).season = s.season ∧
    (tickFuel fuel env s).allTime = s.allTime ∧
    (tickFuel fuel env s).lobby = s.lobby ∧
    ∃ suffix, (tickFuel fuel env s).matchLog = s.matchLog ++ suffix := by
  induction fuel with
  | zero =>
    intro s
    exact ⟨rfl, rfl, rfl, rfl, [], by simp [tickFuel]⟩
  | succ n ih =>
    intro s
    cases hrun : s.tournamentRun with
    | none =>
      simp only [tickFuel, hrun]
      refine ⟨?_, ?_, ?_, ?_, [], ?_⟩ <;> simp
    | some t =>
      simp only [tickFuel, hrun]
      by_cases hst : t.status ≠ "running"
      · simp only [if_pos hst]
        refine ⟨?_, ?_, ?_, ?_, [], ?_⟩ <;> simp
      simp only [if_neg hst]
      by_cases hcur : (getCurrentMatch s).isSome = true
      · simp only [hcur, if_true]
        refine ⟨?_, ?_, ?_, ?_, [], ?_⟩ <;> simp
      simp only [Bool.not_eq_true] at hcur
      simp only [hcur, Bool.false_eq_true, if_false]
      by_cases hchamp : t.pool = [] ∧ t.next.length = 1
      · simp only [if_pos hchamp]
        refine ⟨?_, ?_, ?_, ?_, [], ?_⟩ <;> simp
      simp only [if_neg hchamp]
      generalize (if t.pool = []
        then { t with round := t.round + 1, pool := env.shuffle t.next, next := [] }
        else t : TournamentRun) = t1
      by_cases hbye : t1.pool.length = 1
      · simp only [if_pos hbye]
        exact ih _
      simp only [if_neg hbye]
      cases hp : t1.pool with
      | nil => refine ⟨?_, ?_, ?_, ?_, [], ?_⟩ <;> simp
      | cons a tl =>
        cases tl with
        | nil => refine ⟨?_, ?_, ?_, ?_, [], ?_⟩ <;> simp
        | cons b rest =>
          by_cases hab : a = "" ∨ b = ""
          · simp only [if_pos hab]
            refine ⟨?_, ?_, ?_, ?_, [], ?_⟩ <;> simp
          simp only [if_neg hab]
          unfold createMatch
          cases hfa : findAgent? s.agents a with
          | none => refine ⟨?_, ?_, ?_, ?_, [], ?_⟩ <;> simp
          | some agA =>
            cases hfb : findAgent? s.agents b with
            | none => refine ⟨?_, ?_, ?_, ?_, [], ?_⟩ <;> simp
            | some agB =>
              exact ⟨rfl, rfl, rfl, rfl, _, rfl⟩

theorem tickTournament_frame (env : Env) (s : ArenaState) :
    (tickTournament env s).agents = s.agents ∧
    (tickTournament env s).season = s.season ∧
    (tickTournament env s).allTime = s.allTime ∧
    (tickTournament env s).lobby = s.lobby ∧
    ∃ suffix, (tickTournament env s).matchLog = s.matchLog ++ suffix :=
  tickFuel_frame 3 env s

theorem resolveMatch_eq (env : Env) (s : ArenaState) (mid : String)
    (forced : Option String) (m : Match)
    (hfm : findMatch? s.matchLog mid = some m) (hm : m.status = "running") :
    resolveMatch env s mid forced
      = (if runIsRunning (resolveState1 env s mid m forced) = true
          then tickTournament env (resolveState1 env s mid m forced)
          else resolveState1 env s mid m forced,
         RResult.ok (resolveRecord env s m forced)) := by
  unfold resolveMatch
  simp only [hfm]
  rw [if_neg (by simp [hm] : ¬ (m.status ≠ "running"))]

theorem resolveMatch_frame (env : Env) (s : ArenaState) (mid : String)
    (forced : Option String) (m : Match)
    (hfm : findMatch? s.matchLog mid = some m) (hm : m.status = "running") :
    (resolveMatch env s mid forced).1.agents = (resolveState1 env s mid m forced).agents ∧
    (resolveMatch env s mid forced).1.season = (resolveState1 env s mid m forced).season ∧
    (resolveMatch env s mid forced).1.allTime = (resolveState1 env s mid m forced).allTime ∧
    ∃ suffix, (resolveMatch env s mid forced).1.matchLog
      = (resolveState1 env s mid m forced).matchLog ++ suffix := by
  rw [resolveMatch_eq env s mid forced m hfm hm]
  by_cases hr : runIsRunning (resolveState1 env s mid m forced) = true
  · rw [if_pos hr]
    obtain ⟨h1, h2, h3, -, suffix, h5⟩ := tickFuel_frame 3 env (resolveState1 env s mid m forced)
    exact ⟨h1, h2, h3, suffix, h5⟩
  · rw [if_neg hr]
    exact ⟨rfl, rfl, rfl, [], by simp⟩

theorem resolveMatch_after_find (env : Env) (s : ArenaState) (mid : String)
    (forced : Option String) (m : Match)
    (hfm : findMatch? s.matchLog mid = some m) (hm : m.status = "running") :
    findMatch? (resolveMatch env s mid forced).1.matchLog mid
      = some (resolveRecord env s m forced) ∧
    (resolveMatch env s mid forced).2 = RResult.ok (resolveRecord env s m forced) := by
  have hid : (resolveRecord env s m forced).id = mid := by
    rw [resolveRecord_id]
    exact findMatch?_some_id hfm
  obtain ⟨-, -, -, suffix, hlog⟩ := resolveMatch_frame env s mid forced m hfm hm
  constructor
  · rw [hlog]
    have hfind1 : findMatch? (resolveState1 env s mid m forced).matchLog mid
        = some (resolveRecord env s m forced) := by
      show findMatch? (replaceMatch s.matchLog mid (resolveRecord env s m forced)) mid = _
      exact findMatch?_replaceMatch_self hfm hid
    exact findMatch?_append_left hfind1
  · rw [resolveMatch_eq env s mid forced m hfm hm]

theorem lobbyAddAgent_mem (env : Env) (aid : String) (s : ArenaState)
    (hne : aid ≠ "") (hnotin : ∀ l, s.lobby = some l → aid ∉ l.agentIds) :
    ∃ l2, (lobbyAddAgent env aid s).lobby = some l2 ∧ l2.status = "open" ∧
      aid ∈ l2.agentIds ∧ l2.agentIds.count aid = 1 := by
  unfold lobbyAddAgent ensureLobby
  rw [if_neg hne]
  cases hl : s.lobby with
  | none =>
    dsimp only
    rw [if_neg (by simp : ¬ (aid ∈ ([] : List String)))]
    exact ⟨_, rfl, rfl, by simp, by simp⟩
  | some l =>
    dsimp only
    by_cases ho : l.status = "open"
    · rw [if_pos ho]
      dsimp only
      have hnot : aid ∉ l.agentIds := hnotin l hl
      rw [if_neg hnot]
      refine ⟨_, rfl, ho, by simp, ?_⟩
      rw [List.count_append]
      rw [List.count_eq_zero.mpr hnot]
      simp
    · rw [if_neg ho]
      dsimp only
      rw [if_neg (by simp : ¬ (aid ∈ ([] : List String)))]
      exact ⟨_, rfl, rfl, by simp, by simp⟩

theorem list_three_of_perm {l : List String} {a b c : String}
    (h : l.Perm [a, b, c]) : ∃ x y z, l = [x, y, z] := by
  have hlen : l.length = 3 := by
    rw [h.length_eq]
    rfl
  match l, hlen with
  | [x, y, z], _ => exact ⟨x, y, z, rfl⟩

theorem get?_mem_of_lt {l : List String} {n : Nat} (h : n < l.length) :
    ∃ w, l.get? n = some w ∧ w ∈ l := by
  induction l generalizing n with
  | nil => simp at h
  | cons a tl ih =>
    cases n with
    | zero => exact ⟨a, rfl, by simp⟩
    | succ k =>
      obtain ⟨w, h1, h2⟩ := ih (by simpa using h)
      exact ⟨w, h1, by simp [h2]⟩

theorem resolveMatch_already (env : Env) (s : ArenaState) (mid : String)
    (forced : Option String) (m : Match)
    (hfm : findMatch? s.matchLog mid = some m) (hm : m.status ≠ "running") :
    resolveMatch env s mid forced = (s, RResult.already m) := by
  unfold resolveMatch
  simp only [hfm]
  rw [if_pos hm]

theorem startQuickMatchWith_rejects (env : Env) (s : ArenaState) (picked : List String)
    {cm : Match} (hcm : getCurrentMatch s = some cm) (hrunc : cm.status = "running") :
    (startQuickMatchWith env s picked).1 = s ∧
    ∀ mm, (startQuickMatchWith env s picked).2 ≠ QMResult.ok mm := by
  unfold startQuickMatchWith
  by_cases h1 : picked.length ≠ 2 ∨ picked.getD 0 "" = picked.getD 1 ""
  · rw [if_pos h1]
    exact ⟨rfl, fun mm h => QMResult.noConfusion h⟩
  rw [if_neg h1]
  cases hfa : findAgent? s.agents (picked.getD 0 "") with
  | none =>
    cases hfb : findAgent? s.agents (picked.getD 1 "") with
    | none => exact ⟨rfl, fun mm h => QMResult.noConfusion h⟩
    | some b => exact ⟨rfl, fun mm h => QMResult.noConfusion h⟩
  | some a =>
    cases hfb : findAgent? s.agents (picked.getD 1 "") with
    | none => exact ⟨rfl, fun mm h => QMResult.noConfusion h⟩
    | some b =>
      simp only [hcm]
      rw [if_pos hrunc]
      exact ⟨rfl, fun mm h => QMResult.noConfusion h⟩

theorem startQuickMatch_rejects (env : Env) (s : ArenaState) (aId bId : String)
    {cm : Match} (hcm : getCurrentMatch s = some cm) (hrunc : cm.status = "running") :
    (startQuickMatch env s aId bId).1 = s ∧
    ∀ mm, (startQuickMatch env s aId bId).2 ≠ QMResult.ok mm := by
  unfold startQuickMatch
  by_cases hids : [jsTrim aId, jsTrim bId].filter (fun x => x ≠ "") = []
  · rw [if_pos hids]
    by_cases hn : s.agents.length < 2
    · rw [if_pos hn]
      exact ⟨rfl, fun mm h => QMResult.noConfusion h⟩
    rw [if_neg hn]
    cases env.shuffleAgents s.agents with
    | nil => exact ⟨rfl, fun mm h => QMResult.noConfusion h⟩
    | cons xx tl =>
      cases tl with
      | nil => exact ⟨rfl, fun mm h => QMResult.noConfusion h⟩
      | cons yy rest => exact startQuickMatchWith_rejects env s _ hcm hrunc
  · rw [if_neg hids]
    exact startQuickMatchWith_rejects env s _ hcm hrunc

theorem resolve_ledger_facts (env : Env) (s : ArenaState) (mid : String)
    (forced : Option String) (m : Match) (x y : String)
    (hfm : findMatch? s.matchLog mid = some m) (hm : m.status = "running")
    (hag : m.agents = [x, y]) (hx0 : x ≠ "") (hy0 : y ≠ "") (hxy : x ≠ y) :
    lookupNum (resolveMatch env s mid forced).1.season.played x
        = lookupNum s.season.played x + 1 ∧
    lookupNum (resolveMatch env s mid forced).1.season.played y
        = lookupNum s.season.played y + 1 ∧
    lookupNum (resolveMatch env s mid forced).1.allTime.played x
        = lookupNum s.allTime.played x + 1 ∧
    lookupNum (resolveMatch env s mid forced).1.allTime.played y
        = lookupNum s.allTime.played y + 1 ∧
    lookupNum (resolveMatch env s mid forced).1.season.wins (decideWinner env m forced)
        = lookupNum s.season.wins (decideWinner env m forced) + 1 ∧
    lookupNum (resolveMatch env s mid forced).1.allTime.wins (decideWinner env m forced)
        = lookupNum s.allTime.wins (decideWinner env m forced) + 1 ∧
    lookupNum (resolveMatch env s mid forced).1.season.wins (matchLoser env m forced)
        = lookupNum s.season.wins (matchLoser env m forced) ∧
    lookupNum (resolveMatch env s mid forced).1.allTime.wins (matchLoser env m forced)
        = lookupNum s.allTime.wins (matchLoser env m forced) := by
  obtain ⟨-, hsea, hat, -⟩ := resolveMatch_frame env s mid forced m hfm hm
  rw [hsea, hat]
  have haid : m.agents.getD 0 "" = x := by rw [hag]; rfl
  have hbid : m.agents.getD 1 "" = y := by rw [hag]; rfl
  have hplayedS : (resolveState1 env s mid m forced).season.played
      = inc (inc s.season.played x) y := by
    show inc (inc s.season.played (m.agents.getD 0 "")) (m.agents.getD 1 "") = _
    rw [haid, hbid]
  have hplayedA : (resolveState1 env s mid m forced).allTime.played
      = inc (inc s.allTime.played x) y := by
    show inc (inc s.allTime.played (m.agents.getD 0 "")) (m.agents.getD 1 "") = _
    rw [haid, hbid]
  have hwinsS : (resolveState1 env s mid m forced).season.wins
      = inc s.season.wins (decideWinner env m forced) := rfl
  have hwinsA : (resolveState1 env s mid m forced).allTime.wins
      = inc s.allTime.wins (decideWinner env m forced) := rfl
  have hw0 : decideWinner env m forced ≠ "" := by
    rcases decideWinner_mem env hag forced with hw | hw <;> rw [hw]
    · exact hx0
    · exact hy0
  have hwl : decideWinner env m forced ≠ matchLoser env m forced := by
    rcases winner_loser_cases env hag forced with ⟨hw, hl⟩ | ⟨hw, hl⟩
    · rw [hw, hl]; exact hxy
    · rw [hw, hl]; exact fun hh => hxy hh.symm
  rw [hplayedS, hplayedA, hwinsS, hwinsA]
  have hnyx : ¬ (y ≠ "" ∧ x = y) := fun hh => hxy hh.2
  have hnxy : ¬ (x ≠ "" ∧ y = x) := fun hh => hxy hh.2.symm
  have hnlw : ¬ (decideWinner env m forced ≠ "" ∧
      matchLoser env m forced = decideWinner env m forced) := fun hh => hwl hh.2.symm
  refine ⟨?_, ?_, ?_, ?_, ?_, ?_, ?_, ?_⟩
  · rw [lookupNum_inc, if_neg hnyx, lookupNum_inc, if_pos ⟨hx0, rfl⟩]
  · rw [lookupNum_inc, if_pos ⟨hy0, rfl⟩, lookupNum_inc, if_neg hnxy]
  · rw [lookupNum_inc, if_neg hnyx, lookupNum_inc, if_pos ⟨hx0, rfl⟩]
  · rw [lookupNum_inc, if_pos ⟨hy0, rfl⟩, lookupNum_inc, if_neg hnxy]
  · rw [lookupNum_inc, if_pos ⟨hw0, rfl⟩]
  · rw [lookupNum_inc, if_pos ⟨hw0, rfl⟩]
  · rw [lookupNum_inc, if_neg hnlw]
  · rw [lookupNum_inc, if_neg hnlw]

/-- C1: for every sequence of scheduler operations from a fresh server, at
most one match record has status `running` at any time; moreover
`tickTournament` is a no-op (in particular creates no match) while a
current match exists, and `POST /api/matches/start` is rejected without
any state mutation while a match is running. -/
theorem c1_single_running_match (s : ArenaState) (h : Reachable s) :
    countRunning s ≤ 1 ∧
    (∀ env : Env, (getCurrentMatch s).isSome = true → tickTournament env s = s) ∧
    (∀ (env : Env) (aId bId : String) (cm : Match),
      getCurrentMatch s = some cm → cm.status = "running" →
      (startQuickMatch env s aId bId).1 = s ∧
      ∀ mm, (startQuickMatch env s aId bId).2 ≠ QMResult.ok mm) := by
  have hinv := inv_reachable h
  refine ⟨hinv.countRunning_le_one, ?_, ?_⟩
  · intro env hs
    show tickFuel 3 env s = s
    cases hrun : s.tournamentRun with
    | none => simp only [tickFuel, hrun]
    | some t =>
      simp only [tickFuel, hrun]
      by_cases hst : t.status ≠ "running"
      · rw [if_pos hst]
      · rw [if_neg hst, if_pos hs]
  · intro env aId bId cm hcm hrunc
    exact startQuickMatch_rejects env s aId bId hcm hrunc

/-- C1 witness: the theorem instantiated at the initial state. -/
theorem c1_single_running_match_witness :
    countRunning initState ≤ 1 ∧
    (∀ env : Env, (getCurrentMatch initState).isSome = true →
      tickTournament env initState = initState) ∧
    (∀ (env : Env) (aId bId : String) (cm : Match),
      getCurrentMatch initState = some cm → cm.status = "running" →
      (startQuickMatch env initState aId bId).1 = initState ∧
      ∀ mm, (startQuickMatch env initState aId bId).2 ≠ QMResult.ok mm) :=
  c1_single_running_match initState Relation.ReflTransGen.refl

/-- C3: resolving is idempotent — once a resolution has completed a match,
a second `resolveMatch` on the same id returns the stored record with the
same winner and end time, leaves the whole state (in particular both
ledgers) unchanged, and reports the already-complete outcome. -/
theorem c3_resolve_idempotent (env env2 : Env) (s : ArenaState) (mid : String)
    (forced forced2 : Option String) (m : Match)
    (hfm : findMatch? s.matchLog mid = some m) (hm : m.status = "running") :
    (resolveMatch env s mid forced).2 = RResult.ok (resolveRecord env s m forced) ∧
    resolveMatch env2 (resolveMatch env s mid forced).1 mid forced2
      = ((resolveMatch env s mid forced).1,
         RResult.already (resolveRecord env s m forced)) ∧
    RResult.record (resolveMatch env2 (resolveMatch env s mid forced).1 mid forced2).2
      = RResult.record (resolveMatch env s mid forced).2 ∧
    (resolveMatch env2 (resolveMatch env s mid forced).1 mid forced2).1.season
      = (resolveMatch env s mid forced).1.season ∧
    (resolveMatch env2 (resolveMatch env s mid forced).1 mid forced2).1.allTime
      = (resolveMatch env s mid forced).1.allTime := by
  obtain ⟨hfind, hres⟩ := resolveMatch_after_find env s mid forced m hfm hm
  have hsecond := resolveMatch_already env2 (resolveMatch env s mid forced).1 mid forced2
    (resolveRecord env s m forced) hfind
    (by rw [resolveRecord_status]; decide)
  refine ⟨hres, hsecond, ?_, ?_, ?_⟩
  · rw [hsecond, hres]
    rfl
  · rw [hsecond]
  · rw [hsecond]

/-- C3 witness: resolving M1 twice on the concrete state wState. -/
theorem c3_resolve_idempotent_witness :
    (resolveMatch (mkEnv 5 "-" "M2" "-" "-") wState "M1" (some "A")).2
      = RResult.ok (resolveRecord (mkEnv 5 "-" "M2" "-" "-") wState wM1 (some "A")) ∧
    resolveMatch (mkEnv 9 "-" "M3" "-" "-")
        (resolveMatch (mkEnv 5 "-" "M2" "-" "-") wState "M1" (some "A")).1 "M1" none
      = ((resolveMatch (mkEnv 5 "-" "M2" "-" "-") wState "M1" (some "A")).1,
         RResult.already (resolveRecord (mkEnv 5 "-" "M2" "-" "-") wState wM1 (some "A"))) ∧
    RResult.record (resolveMatch (mkEnv 9 "-" "M3" "-" "-")
        (resolveMatch (mkEnv 5 "-" "M2" "-" "-") wState "M1" (some "A")).1 "M1" none).2
      = RResult.record (resolveMatch (mkEnv 5 "-" "M2" "-" "-") wState "M1" (some "A")).2 ∧
    (resolveMatch (mkEnv 9 "-" "M3" "-" "-")
        (resolveMatch (mkEnv 5 "-" "M2" "-" "-") wState "M1" (some "A")).1 "M1" none).1.season
      = (resolveMatch (mkEnv 5 "-" "M2" "-" "-") wState "M1" (some "A")).1.season ∧
    (resolveMatch (mkEnv 9 "-" "M3" "-" "-")
        (resolveMatch (mkEnv 5 "-" "M2" "-" "-") wState "M1" (some "A")).1 "M1" none).1.allTime
      = (resolveMatch (mkEnv 5 "-" "M2" "-" "-") wState "M1" (some "A")).1.allTime :=
  c3_resolve_idempotent (mkEnv 5 "-" "M2" "-" "-") (mkEnv 9 "-" "M3" "-" "-") wState "M1"
    (some "A") none wM1 (by decide) rfl

/-- C6: in every reachable state `wins[k] <= played[k]` for every agent id
in both the season and the all-time ledgers, and a resolution of a running
match between two distinct agents increments `played` for both of them and
`wins` only for the decided winner, in both ledgers. -/
theorem c6_ledger_monotonic (s : ArenaState) (h : Reachable s) :
    (∀ agentId, lookupNum s.season.wins agentId ≤ lookupNum s.season.played agentId) ∧
    (∀ agentId, lookupNum s.allTime.wins agentId ≤ lookupNum s.allTime.played agentId) ∧
    (∀ (env : Env) (mid : String) (forced : Option String) (m : Match) (x y : String),
      findMatch? s.matchLog mid = some m → m.status = "running" → m.agents = [x, y] →
      x ≠ "" → y ≠ "" → x ≠ y →
      lookupNum (resolveMatch env s mid forced).1.season.played x
          = lookupNum s.season.played x + 1 ∧
      lookupNum (resolveMatch env s mid forced).1.season.played y
          = lookupNum s.season.played y + 1 ∧
      lookupNum (resolveMatch env s mid forced).1.allTime.played x
          = lookupNum s.allTime.played x + 1 ∧
      lookupNum (resolveMatch env s mid forced).1.allTime.played y
          = lookupNum s.allTime.played y + 1 ∧
      lookupNum (resolveMatch env s mid forced).1.season.wins (decideWinner env m forced)
          = lookupNum s.season.wins (decideWinner env m forced) + 1 ∧
      lookupNum (resolveMatch env s mid forced).1.allTime.wins (decideWinner env m forced)
          = lookupNum s.allTime.wins (decideWinner env m forced) + 1 ∧
      lookupNum (resolveMatch env s mid forced).1.season.wins (matchLoser env m forced)
          = lookupNum s.season.wins (matchLoser env m forced) ∧
      lookupNum (resolveMatch env s mid forced).1.allTime.wins (matchLoser env m forced)
          = lookupNum s.allTime.wins (matchLoser env m forced)) := by
  have hinv := inv_reachable h
  refine ⟨hinv.seasonLe, hinv.allTimeLe, ?_⟩
  intro env mid forced m x y hfm hm hag hx0 hy0 hxy
  exact resolve_ledger_facts env s mid forced m x y hfm hm hag hx0 hy0 hxy

/-- C6 witness: the theorem instantiated at the initial state. -/
theorem c6_ledger_monotonic_witness :
    (∀ agentId, lookupNum initState.season.wins agentId
      ≤ lookupNum initState.season.played agentId) ∧
    (∀ agentId, lookupNum initState.allTime.wins agentId
      ≤ lookupNum initState.allTime.played agentId) :=
  ⟨(c6_ledger_monotonic initState Relation.ReflTransGen.refl).1,
   (c6_ledger_monotonic initState Relation.ReflTransGen.refl).2.1⟩

/-- C8: resolving an unknown match id returns the not-found error and
leaves the state untouched; that outcome is distinct from both success
outcomes, in particular from the idempotent already-complete reply. -/
theorem c8_resolve_unknown (env : Env) (s : ArenaState) (mid : String)
    (forced : Option String) (hnone : ∀ m ∈ s.matchLog, m.id ≠ mid) :
    resolveMatch env s mid forced = (s, RResult.err 404 "match not found") ∧
    (∀ m, RResult.err 404 "match not found" ≠ RResult.already m) ∧
    (∀ m, RResult.err 404 "match not found" ≠ RResult.ok m) := by
  refine ⟨?_, fun m hh => RResult.noConfusion hh, fun m hh => RResult.noConfusion hh⟩
  unfold resolveMatch
  rw [findMatch?_eq_none.mpr hnone]

/-- C8 witness: resolving an id on a fresh server with an empty log. -/
theorem c8_resolve_unknown_witness :
    resolveMatch (mkEnv 0 "-" "-" "-" "-") initState "nope" none
      = (initState, RResult.err 404 "match not found") :=
  (c8_resolve_unknown (mkEnv 0 "-" "-" "-" "-") initState "nope" none
    (by intro m hm; simp [initState] at hm)).1

theorem tickFuel_three (fuel : Nat) (env : Env) (s : ArenaState) (t : TournamentRun)
    (x y z : String) (ax ay : Agent)
    (hrun : s.tournamentRun = some t) (hts : t.status = "running")
    (hcur : getCurrentMatch s = none)
    (hpool : t.pool = [x, y, z]) (hx0 : x ≠ "") (hy0 : y ≠ "")
    (hagx : findAgent? s.agents x = some ax) (hagy : findAgent? s.agents y = some ay) :
    tickFuel (fuel + 1) env s
      = registerMatch { s with tournamentRun := some { t with pool := [z] } }
          { id := env.newMatchId, status := "running", agents := [ax.id, ay.id],
            winnerId := none, startedAt := env.nowMs, endedAt := none,
            events := [⟨env.nowMs, "announce", "ROUND " ++ toString t.round⟩,
                       ⟨env.nowMs, "start",
                        "Match started: " ++ ax.name ++ " vs " ++ ay.name⟩,
                       ⟨env.nowMs, "announce", "The gates open. The crowd roars."⟩] } := by
  have hnst : ¬ (t.status ≠ "running") := by simp [hts]
  simp only [tickFuel, hrun, if_neg hnst]
  have hcur' : (getCurrentMatch s).isSome = false := by rw [hcur]; rfl
  simp only [hcur', Bool.false_eq_true, if_false]
  have hchamp : ¬ (t.pool = [] ∧ t.next.length = 1) := by
    rw [hpool]
    rintro ⟨h, -⟩
    exact List.noConfusion h
  simp only [if_neg hchamp]
  have hpne : ¬ (t.pool = []) := by
    rw [hpool]
    exact fun h => List.noConfusion h
  simp only [if_neg hpne]
  have hlen : ¬ (t.pool.length = 1) := by rw [hpool]; simp
  simp only [if_neg hlen]
  simp only [hpool]
  have hab : ¬ (x = "" ∨ y = "") := by
    rintro (h | h)
    · exact hx0 h
    · exact hy0 h
  simp only [if_neg hab]
  unfold createMatch
  simp only [hagx, hagy]

/-- C5 counterexample: start the bracket from the reachable lobby of the
three participants A, B, C (byeS3, deadline tick byeS4).  One match between
A and B is created, but the third participant C stays alone in the run's
`pool` — `next` is empty — contradicting the claim that the third appears
in `next`. -/
theorem c5_bye_counterexample :
    runParticipants byeS4 = ["A", "B", "C"] ∧
    runStatus byeS4 = "running" ∧
    byeS4.matchLog.map Match.agents = [["A", "B"]] ∧
    byeS4.matchLog.map Match.status = ["running"] ∧
    runPool byeS4 = ["C"] ∧
    runNext byeS4 = [] ∧
    "C" ∉ runNext byeS4 ∧
    countRunning byeS4 = 1 := by
  decide

/-- C5 (amended): starting a bracket from an open lobby of exactly three
distinct, valid, fresh participants creates exactly one running match
between the first two ids of the shuffled order, and the third id of that
order stays alone in the run's `pool` (not in `next`), unreferenced by any
match record. -/
theorem c5_three_participant_bye (env : Env) (s : ArenaState) (l : Lobby)
    (a b c : String) (hperm : ShufflePerm env)
    (hl : s.lobby = some l) (hlo : l.status = "open") (hids : l.agentIds = [a, b, c])
    (hab : a ≠ b) (hac : a ≠ c) (hbc : b ≠ c)
    (ha0 : a ≠ "") (hb0 : b ≠ "") (hc0 : c ≠ "")
    (hag : ∀ id ∈ [a, b, c], (findAgent? s.agents id).isSome)
    (hcur : getCurrentMatch s = none)
    (hfresh : ∀ mm ∈ s.matchLog, ∀ id ∈ [a, b, c], id ∉ mm.agents) :
    ∃ x y z, env.shuffle [a, b, c] = [x, y, z] ∧
      (startTournamentFromLobby env s).2 = true ∧
      runStatus (startTournamentFromLobby env s).1 = "running" ∧
      runParticipants (startTournamentFromLobby env s).1 = [a, b, c] ∧
      runPool (startTournamentFromLobby env s).1 = [z] ∧
      runNext (startTournamentFromLobby env s).1 = [] ∧
      (newMatches s (startTournamentFromLobby env s).1).map Match.agents = [[x, y]] ∧
      (newMatches s (startTournamentFromLobby env s).1).map Match.status = ["running"] ∧
      z ∉ [x, y] ∧
      (∀ mm ∈ (startTournamentFromLobby env s).1.matchLog, z ∉ mm.agents) := by
  have hpl := hperm [a, b, c]
  obtain ⟨x, y, z, hxyz⟩ := list_three_of_perm hpl
  rw [hxyz] at hpl
  have hnodup : ([a, b, c] : List String).Nodup := by simp [hab, hac, hbc]
  have hnodup2 : ([x, y, z] : List String).Nodup := hpl.symm.nodup hnodup
  obtain ⟨⟨hxyne, hxzne⟩, hyzne⟩ : (x ≠ y ∧ x ≠ z) ∧ y ≠ z := by simpa using hnodup2
  have hzxy : z ∉ ([x, y] : List String) := by
    intro hm
    simp only [List.mem_cons, List.not_mem_nil, or_false] at hm
    rcases hm with h | h
    · exact hxzne h.symm
    · exact hyzne h.symm
  have hmemx : x ∈ ([a, b, c] : List String) := hpl.subset (by simp)
  have hmemy : y ∈ ([a, b, c] : List String) := hpl.subset (by simp)
  have hmemz : z ∈ ([a, b, c] : List String) := hpl.subset (by simp)
  have hval : ∀ id ∈ ([a, b, c] : List String), id ≠ "" := by
    intro id hid
    simp only [List.mem_cons, List.not_mem_nil, or_false] at hid
    rcases hid with h | h | h <;> subst h <;> assumption
  obtain ⟨ax, hagx⟩ := Option.isSome_iff_exists.mp (hag x hmemx)
  obtain ⟨ay, hagy⟩ := Option.isSome_iff_exists.mp (hag y hmemy)
  have hAid := findAgent?_some_id hagx
  have hBid := findAgent?_some_id hagy
  have hfilter : l.agentIds.filter (fun id => (findAgent? s.agents id).isSome) = [a, b, c] := by
    rw [hids]
    simp only [List.filter_cons, List.filter_nil, hag a (by simp), hag b (by simp),
      hag c (by simp), if_true]
  have hmain : startTournamentFromLobby env s
      = (tickTournament env { s with
          tournamentRun := some (⟨env.newRunId, "running", 1, [a, b, c], [x, y, z], []⟩
            : TournamentRun),
          lobby := some { l with status := "closed" } }, true) := by
    unfold startTournamentFromLobby
    simp only [hl]
    rw [if_neg (by simp [hlo])]
    simp only [hfilter]
    rw [if_neg (by simp [LOBBY_MIN_AGENTS])]
    rw [hxyz]
  have htick := tickFuel_three 2 env
    { s with
      tournamentRun := some (⟨env.newRunId, "running", 1, [a, b, c], [x, y, z], []⟩
        : TournamentRun),
      lobby := some { l with status := "closed" } }
    ⟨env.newRunId, "running", 1, [a, b, c], [x, y, z], []⟩
    x y z ax ay rfl rfl hcur rfl (hval x hmemx) (hval y hmemy) hagx hagy
  have hres : (startTournamentFromLobby env s).1
      = registerMatch
          { s with
            tournamentRun := some (⟨env.newRunId, "running", 1, [a, b, c], [z], []⟩
              : TournamentRun),
            lobby := some { l with status := "closed" } }
          { id := env.newMatchId, status := "running", agents := [ax.id, ay.id],
            winnerId := none, startedAt := env.nowMs, endedAt := none,
            events := [⟨env.nowMs, "announce", "ROUND " ++ toString 1⟩,
                       ⟨env.nowMs, "start",
                        "Match started: " ++ ax.name ++ " vs " ++ ay.name⟩,
                       ⟨env.nowMs, "announce", "The gates open. The crowd roars."⟩] } := by
    rw [hmain]
    exact htick
  refine ⟨x, y, z, hxyz, ?_, ?_, ?_, ?_, ?_, ?_, ?_, hzxy, ?_⟩
  · rw [hmain]
  · rw [hres]; rfl
  · rw [hres]; rfl
  · rw [hres]; rfl
  · rw [hres]; rfl
  · rw [hres]
    simp only [newMatches, registerMatch]
    rw [List.drop_left]
    simp only [List.map_cons, List.map_nil]
    rw [hAid, hBid]
  · rw [hres]
    simp only [newMatches, registerMatch]
    rw [List.drop_left]
    rfl
  · intro mm hmm hzin
    rw [hres] at hmm
    simp only [registerMatch, List.mem_append, List.mem_singleton] at hmm
    rcases hmm with hmm | hmm
    · exact hfresh mm hmm z hmemz hzin
    · subst hmm
      simp only at hzin
      rw [hAid, hBid] at hzin
      exact hzxy hzin

/-- C5 witness: the amended theorem on the reachable three-agent lobby
byeS3 at its deadline. -/
theorem c5_three_participant_bye_witness :
    ∃ x y z, (mkEnv 300000 "-" "M1" "R1" "-").shuffle ["A", "B", "C"] = [x, y, z] ∧
      (startTournamentFromLobby (mkEnv 300000 "-" "M1" "R1" "-") byeS3).2 = true ∧
      runStatus (startTournamentFromLobby (mkEnv 300000 "-" "M1" "R1" "-") byeS3).1
        = "running" ∧
      runParticipants (startTournamentFromLobby (mkEnv 300000 "-" "M1" "R1" "-") byeS3).1
        = ["A", "B", "C"] ∧
      runPool (startTournamentFromLobby (mkEnv 300000 "-" "M1" "R1" "-") byeS3).1 = [z] ∧
      runNext (startTournamentFromLobby (mkEnv 300000 "-" "M1" "R1" "-") byeS3).1 = [] ∧
      (newMatches byeS3
          (startTournamentFromLobby (mkEnv 300000 "-" "M1" "R1" "-") byeS3).1).map Match.agents
        = [[x, y]] ∧
      (newMatches byeS3
          (startTournamentFromLobby (mkEnv 300000 "-" "M1" "R1" "-") byeS3).1).map Match.status
        = ["running"] ∧
      z ∉ [x, y] ∧
      (∀ mm ∈ (startTournamentFromLobby (mkEnv 300000 "-" "M1" "R1" "-") byeS3).1.matchLog,
        z ∉ mm.agents) :=
  c5_three_participant_bye (mkEnv 300000 "-" "M1" "R1" "-") byeS3
    ⟨"L1", "open", 1000, 241000, ["A", "B", "C"]⟩ "A" "B" "C"
    (fun l => List.Perm.refl l) (by decide) rfl rfl
    (by decide) (by decide) (by decide) (by decide) (by decide) (by decide)
    (by decide) (by decide) (by decide)

theorem arenaJoin_new_eq (env : Env) (s : ArenaState) (name llm : String)
    (hname : ¬ (jsTrim name = "" ∨ 64 < (jsTrim name).length))
    (hllm : ¬ (jsTrim llm = "" ∨ 32 < (jsTrim llm).length))
    (hfind : s.agents.find? (fun a => jsToLower a.name == jsToLower (jsTrim name)) = none) :
    arenaJoin env s name llm
      = (if lobbyReadyToStart env (lobbyAddAgent env env.newAgentId
            { s with agents := s.agents
                ++ [⟨env.newAgentId, jsTrim name, some (jsTrim llm), env.nowMs⟩] }) = true
         then (startTournamentFromLobby env (lobbyAddAgent env env.newAgentId
            { s with agents := s.agents
                ++ [⟨env.newAgentId, jsTrim name, some (jsTrim llm), env.nowMs⟩] })).1
         else lobbyAddAgent env env.newAgentId
            { s with agents := s.agents
                ++ [⟨env.newAgentId, jsTrim name, some (jsTrim llm), env.nowMs⟩] },
         JoinResult.okNew ⟨env.newAgentId, jsTrim name, some (jsTrim llm), env.nowMs⟩) := by
  unfold arenaJoin
  rw [if_neg hname, if_neg hllm]
  simp only [hfind]

theorem arenaJoin_existing_eq (env : Env) (s : ArenaState) (name llm : String)
    (ex : Agent)
    (hname : ¬ (jsTrim name = "" ∨ 64 < (jsTrim name).length))
    (hllm : ¬ (jsTrim llm = "" ∨ 32 < (jsTrim llm).length))
    (hfind : s.agents.find? (fun a => jsToLower a.name == jsToLower (jsTrim name)) = some ex) :
    arenaJoin env s name llm
      = if ex.llm.getD "" = "" ∨ ex.llm ≠ some (jsTrim llm)
        then ({ s with agents := (updateFirstAgent s.agents
                  (fun a => jsToLower a.name == jsToLower (jsTrim name))
                  (fun a => { a with llm := some (jsTrim llm) })) },
              JoinResult.okExisting { ex with llm := some (jsTrim llm) })
        else (s, JoinResult.okExisting ex) := by
  unfold arenaJoin
  rw [if_neg hname, if_neg hllm]
  simp only [hfind]

/-- C4 counterexample: on the reachable state exS3 — two joins, then the
deadline hand-off that closed lobby L1 and started the bracket — joining
again with the valid existing name Ava returns the stored agent but does no
lobby work at all: the state is unchanged and the only lobby is still the
closed one, refuting the claim that an accepted join always adds the
agent's id to an open lobby (creating one if none is open) in the
existing-agent case. -/
theorem c4_join_counterexample :
    (¬ (jsTrim "Ava" = "" ∨ 64 < (jsTrim "Ava").length)) ∧
    (¬ (jsTrim "gpt" = "" ∨ 32 < (jsTrim "gpt").length)) ∧
    (arenaJoin (mkEnv 5000 "-" "-" "-" "-") exS3 "Ava" "gpt").1 = exS3 ∧
    (arenaJoin (mkEnv 5000 "-" "-" "-" "-") exS3 "Ava" "gpt").2
      = JoinResult.okExisting ⟨"A", "Ava", some "gpt", 1000⟩ ∧
    exS3.lobby = some ⟨"L1", "closed", 1000, 241000, ["A", "B"]⟩ ∧
    (arenaJoin (mkEnv 5000 "-" "-" "-" "-") exS3 "Ava" "gpt").1.lobby.map Lobby.status
      = some "closed" := by
  decide

/-- C4 (amended): a valid join splits into two contracts.  New name: the
agent is created, its fresh id is appended to an open lobby (created if
none is open) exactly once, and the hand-off fires precisely when the
grown lobby is ready.  Existing name: the lobby, match log, bracket and
current-match pointer are untouched — no lobby membership is added — and
the stored agent is returned, possibly with a refreshed llm tag. -/
theorem c4_join_contract (env : Env) (s : ArenaState) (name llm : String)
    (hname : ¬ (jsTrim name = "" ∨ 64 < (jsTrim name).length))
    (hllm : ¬ (jsTrim llm = "" ∨ 32 < (jsTrim llm).length)) :
    ((s.agents.find? (fun a => jsToLower a.name == jsToLower (jsTrim name)) = none) →
      env.newAgentId ≠ "" →
      (∀ l, s.lobby = some l → env.newAgentId ∉ l.agentIds) →
      (arenaJoin env s name llm).2 = JoinResult.okNew
          ⟨env.newAgentId, jsTrim name, some (jsTrim llm), env.nowMs⟩ ∧
      (∃ l2, (lobbyAddAgent env env.newAgentId
            { s with agents := s.agents
                ++ [⟨env.newAgentId, jsTrim name, some (jsTrim llm), env.nowMs⟩] }).lobby
          = some l2 ∧ l2.status = "open" ∧ env.newAgentId ∈ l2.agentIds ∧
          l2.agentIds.count env.newAgentId = 1) ∧
      (arenaJoin env s name llm).1
        = (if lobbyReadyToStart env (lobbyAddAgent env env.newAgentId
              { s with agents := s.agents
                  ++ [⟨env.newAgentId, jsTrim name, some (jsTrim llm), env.nowMs⟩] }) = true
           then (startTournamentFromLobby env (lobbyAddAgent env env.newAgentId
              { s with agents := s.agents
                  ++ [⟨env.newAgentId, jsTrim name, some (jsTrim llm), env.nowMs⟩] })).1
           else lobbyAddAgent env env.newAgentId
              { s with agents := s.agents
                  ++ [⟨env.newAgentId, jsTrim name, some (jsTrim llm), env.nowMs⟩] })) ∧
    (∀ ex, s.agents.find? (fun a => jsToLower a.name == jsToLower (jsTrim name)) = some ex →
      (arenaJoin env s name llm).1.lobby = s.lobby ∧
      (arenaJoin env s name llm).1.matchLog = s.matchLog ∧
      (arenaJoin env s name llm).1.tournamentRun = s.tournamentRun ∧
      (arenaJoin env s name llm).1.currentMatchId = s.currentMatchId ∧
      ((arenaJoin env s name llm).2 = JoinResult.okExisting ex ∨
       (arenaJoin env s name llm).2
          = JoinResult.okExisting { ex with llm := some (jsTrim llm) })) := by
  constructor
  · intro hfind hne hnotin
    have he := arenaJoin_new_eq env s name llm hname hllm hfind
    refine ⟨?_, ?_, ?_⟩
    · rw [he]
    · exact lobbyAddAgent_mem env env.newAgentId
        { s with agents := s.agents
            ++ [⟨env.newAgentId, jsTrim name, some (jsTrim llm), env.nowMs⟩] }
        hne (by intro l hl; exact hnotin l hl)
    · rw [he]
  · intro ex hfind
    have he := arenaJoin_existing_eq env s name llm ex hname hllm hfind
    by_cases hup : ex.llm.getD "" = "" ∨ ex.llm ≠ some (jsTrim llm)
    · rw [if_pos hup] at he
      rw [he]
      exact ⟨rfl, rfl, rfl, rfl, Or.inr rfl⟩
    · rw [if_neg hup] at he
      rw [he]
      exact ⟨rfl, rfl, rfl, rfl, Or.inl rfl⟩

/-- C4 witness: the contract instantiated on a fresh server and the join
of Ava. -/
theorem c4_join_contract_witness :
    ((initState.agents.find? (fun a => jsToLower a.name == jsToLower (jsTrim "Ava")) = none) →
      (mkEnv 1000 "A" "-" "-" "L1").newAgentId ≠ "" →
      (∀ l, initState.lobby = some l → (mkEnv 1000 "A" "-" "-" "L1").newAgentId ∉ l.agentIds) →
      (arenaJoin (mkEnv 1000 "A" "-" "-" "L1") initState "Ava" "gpt").2 = JoinResult.okNew
          ⟨(mkEnv 1000 "A" "-" "-" "L1").newAgentId, jsTrim "Ava", some (jsTrim "gpt"),
           (mkEnv 1000 "A" "-" "-" "L1").nowMs⟩ ∧
      (∃ l2, (lobbyAddAgent (mkEnv 1000 "A" "-" "-" "L1") (mkEnv 1000 "A" "-" "-" "L1").newAgentId
            { initState with agents := initState.agents
                ++ [⟨(mkEnv 1000 "A" "-" "-" "L1").newAgentId, jsTrim "Ava", some (jsTrim "gpt"),
                     (mkEnv 1000 "A" "-" "-" "L1").nowMs⟩] }).lobby
          = some l2 ∧ l2.status = "open" ∧
          (mkEnv 1000 "A" "-" "-" "L1").newAgentId ∈ l2.agentIds ∧
          l2.agentIds.count (mkEnv 1000 "A" "-" "-" "L1").newAgentId = 1) ∧
      (arenaJoin (mkEnv 1000 "A" "-" "-" "L1") initState "Ava" "gpt").1
        = (if lobbyReadyToStart (mkEnv 1000 "A" "-" "-" "L1")
              (lobbyAddAgent (mkEnv 1000 "A" "-" "-" "L1") (mkEnv 1000 "A" "-" "-" "L1").newAgentId
              { initState with agents := initState.agents
                  ++ [⟨(mkEnv 1000 "A" "-" "-" "L1").newAgentId, jsTrim "Ava", some (jsTrim "gpt"),
                       (mkEnv 1000 "A" "-" "-" "L1").nowMs⟩] }) = true
           then (startTournamentFromLobby (mkEnv 1000 "A" "-" "-" "L1")
              (lobbyAddAgent (mkEnv 1000 "A" "-" "-" "L1") (mkEnv 1000 "A" "-" "-" "L1").newAgentId
              { initState with agents := initState.agents
                  ++ [⟨(mkEnv 1000 "A" "-" "-" "L1").newAgentId, jsTrim "Ava", some (jsTrim "gpt"),
                       (mkEnv 1000 "A" "-" "-" "L1").nowMs⟩] })).1
           else lobbyAddAgent (mkEnv 1000 "A" "-" "-" "L1") (mkEnv 1000 "A" "-" "-" "L1").newAgentId
              { initState with agents := initState.agents
                  ++ [⟨(mkEnv 1000 "A" "-" "-" "L1").newAgentId, jsTrim "Ava", some (jsTrim "gpt"),
                       (mkEnv 1000 "A" "-" "-" "L1").nowMs⟩] })) ∧
    (∀ ex, initState.agents.find? (fun a => jsToLower a.name == jsToLower (jsTrim "Ava"))
        = some ex →
      (arenaJoin (mkEnv 1000 "A" "-" "-" "L1") initState "Ava" "gpt").1.lobby
          = initState.lobby ∧
      (arenaJoin (mkEnv 1000 "A" "-" "-" "L1") initState "Ava" "gpt").1.matchLog
          = initState.matchLog ∧
      (arenaJoin (mkEnv 1000 "A" "-" "-" "L1") initState "Ava" "gpt").1.tournamentRun
          = initState.tournamentRun ∧
      (arenaJoin (mkEnv 1000 "A" "-" "-" "L1") initState "Ava" "gpt").1.currentMatchId
          = initState.currentMatchId ∧
      ((arenaJoin (mkEnv 1000 "A" "-" "-" "L1") initState "Ava" "gpt").2
          = JoinResult.okExisting ex ∨
       (arenaJoin (mkEnv 1000 "A" "-" "-" "L1") initState "Ava" "gpt").2
          = JoinResult.okExisting { ex with llm := some (jsTrim "gpt") })) :=
  c4_join_contract (mkEnv 1000 "A" "-" "-" "L1") initState "Ava" "gpt"
    (by decide) (by decide)

/-- C7: resolving a running match between X and Y with X forced as winner
under the permadeath policy removes Y from the roster while X stays, and
Y's newly recorded played counts (and X's win) remain in both the season
and the all-time ledgers. -/
theorem c7_permadeath (env : Env) (s : ArenaState) (mid : String) (m : Match)
    (x y : String)
    (hfm : findMatch? s.matchLog mid = some m) (hm : m.status = "running")
    (hag : m.agents = [x, y]) (hx0 : x ≠ "") (hy0 : y ≠ "") (hxy : x ≠ y)
    (hpd : env.permaDeath = true) :
    (∀ ag ∈ (resolveMatch env s mid (some x)).1.agents, ag.id ≠ y) ∧
    (∀ ag ∈ s.agents, ag.id = x → ag ∈ (resolveMatch env s mid (some x)).1.agents) ∧
    lookupNum (resolveMatch env s mid (some x)).1.season.played y
        = lookupNum s.season.played y + 1 ∧
    lookupNum (resolveMatch env s mid (some x)).1.allTime.played y
        = lookupNum s.allTime.played y + 1 ∧
    lookupNum (resolveMatch env s mid (some x)).1.season.wins y
        = lookupNum s.season.wins y ∧
    lookupNum (resolveMatch env s mid (some x)).1.allTime.wins y
        = lookupNum s.allTime.wins y ∧
    lookupNum (resolveMatch env s mid (some x)).1.season.wins x
        = lookupNum s.season.wins x + 1 ∧
    lookupNum (resolveMatch env s mid (some x)).1.allTime.wins x
        = lookupNum s.allTime.wins x + 1 := by
  have haid : m.agents.getD 0 "" = x := by rw [hag]; rfl
  have hbid : m.agents.getD 1 "" = y := by rw [hag]; rfl
  have hxmem : x ∈ m.agents := by rw [hag]; simp
  have hw : decideWinner env m (some x) = x := by
    unfold decideWinner
    dsimp only
    rw [if_pos ⟨hx0, hxmem⟩]
  have hl : matchLoser env m (some x) = y := by
    unfold matchLoser
    dsimp only
    rw [haid, hbid, hw, if_pos rfl]
  obtain ⟨hagents, -, -, -⟩ := resolveMatch_frame env s mid (some x) m hfm hm
  have hs1ag : (resolveState1 env s mid m (some x)).agents
      = s.agents.filter (fun ag => ag.id ≠ y) := by
    have h0 : (resolveState1 env s mid m (some x)).agents
        = if env.permaDeath = true
          then s.agents.filter (fun ag => ag.id ≠ matchLoser env m (some x))
          else s.agents := rfl
    rw [h0, if_pos hpd]
    simp only [hl]
  obtain ⟨p1, p2, p3, p4, p5, p6, p7, p8⟩ :=
    resolve_ledger_facts env s mid (some x) m x y hfm hm hag hx0 hy0 hxy
  rw [hw] at p5 p6
  rw [hl] at p7 p8
  refine ⟨?_, ?_, p2, p4, p7, p8, p5, p6⟩
  · intro ag hmem
    rw [hagents, hs1ag] at hmem
    have h2 := List.of_mem_filter hmem
    simpa using h2
  · intro ag hmem hid
    rw [hagents, hs1ag]
    refine List.mem_filter.mpr ⟨hmem, ?_⟩
    simp [hid, hxy]

/-- C7 witness: the concrete match M1 between A and B, A forced winner. -/
theorem c7_permadeath_witness :
    (∀ ag ∈ (resolveMatch (mkEnv 7 "-" "M2" "-" "-") wState "M1" (some "A")).1.agents,
      ag.id ≠ "B") ∧
    (∀ ag ∈ wState.agents, ag.id = "A" →
      ag ∈ (resolveMatch (mkEnv 7 "-" "M2" "-" "-") wState "M1" (some "A")).1.agents) ∧
    lookupNum (resolveMatch (mkEnv 7 "-" "M2" "-" "-") wState "M1" (some "A")).1.season.played "B"
        = lookupNum wState.season.played "B" + 1 ∧
    lookupNum (resolveMatch (mkEnv 7 "-" "M2" "-" "-") wState "M1" (some "A")).1.allTime.played "B"
        = lookupNum wState.allTime.played "B" + 1 ∧
    lookupNum (resolveMatch (mkEnv 7 "-" "M2" "-" "-") wState "M1" (some "A")).1.season.wins "B"
        = lookupNum wState.season.wins "B" ∧
    lookupNum (resolveMatch (mkEnv 7 "-" "M2" "-" "-") wState "M1" (some "A")).1.allTime.wins "B"
        = lookupNum wState.allTime.wins "B" ∧
    lookupNum (resolveMatch (mkEnv 7 "-" "M2" "-" "-") wState "M1" (some "A")).1.season.wins "A"
        = lookupNum wState.season.wins "A" + 1 ∧
    lookupNum (resolveMatch (mkEnv 7 "-" "M2" "-" "-") wState "M1" (some "A")).1.allTime.wins "A"
        = lookupNum wState.allTime.wins "A" + 1 :=
  c7_permadeath (mkEnv 7 "-" "M2" "-" "-") wState "M1" wM1 "A" "B"
    (by decide) rfl rfl (by decide) (by decide) (by decide) rfl

/-- C9 counterexample: the demo wildcard pick is a fixed function of the
round-1 loser list — two runs with different ambient random streams select
the same wildcard, demo-09, so the selection is not random. -/
theorem c9_wildcard_counterexample :
    wildcardRun (fun k => 0) (r1Losers demoIds)
      = wildcardRun (fun k => k + 17) (r1Losers demoIds) ∧
    wildcardRun (fun k => 0) (r1Losers demoIds) = some "demo-09" ∧
    r1Losers demoIds = ["demo-02", "demo-04", "demo-06", "demo-08", "demo-09"] ∧
    (fun k => 0 : Nat → Nat) 0 ≠ (fun k => k + 17 : Nat → Nat) 0 := by
  refine ⟨rfl, by decide, by decide, by decide⟩

/-- C9 (amended): the wildcard selection at `src/unnamed/part_002:1560` is
deterministic in the loser-id list: every run computes the loser at index
`hashString(join) mod length`, whatever the ambient random stream, and the
pick is always one of the losers. -/
theorem c9_wildcard_deterministic (losers : List String) (hne : losers ≠ [])
    (r1 r2 : Nat → Nat) :
    wildcardRun r1 losers = wildcardRun r2 losers ∧
    wildcardRun r1 losers
      = losers.get? (hashString (String.intercalate "|" losers) % losers.length) ∧
    (∃ w, wildcardRun r1 losers = some w ∧ w ∈ losers) := by
  refine ⟨rfl, rfl, ?_⟩
  have hlen : 0 < losers.length := by
    cases losers with
    | nil => exact absurd rfl hne
    | cons a tl => simp
  obtain ⟨w, h1, h2⟩ := get?_mem_of_lt
    (Nat.mod_lt (hashString (String.intercalate "|" losers)) hlen)
  exact ⟨w, h1, h2⟩

/-- C9 witness: the amended theorem at the concrete demo loser list. -/
theorem c9_wildcard_deterministic_witness :
    r1Losers demoIds ≠ [] ∧
    (wildcardRun (fun k => k) (r1Losers demoIds)
        = wildcardRun (fun k => 42) (r1Losers demoIds) ∧
      wildcardRun (fun k => k) (r1Losers demoIds)
        = (r1Losers demoIds).get?
            (hashString (String.intercalate "|" (r1Losers demoIds))
              % (r1Losers demoIds).length) ∧
      (∃ w, wildcardRun (fun k => k) (r1Losers demoIds) = some w ∧ w ∈ r1Losers demoIds)) :=
  ⟨by decide, c9_wildcard_deterministic (r1Losers demoIds) (by decide)
    (fun k => k) (fun k => 42)⟩

/-- C10: loadState never returns a closed lobby — every lobby it loads has
status open, and a stored lobby object carrying a string id (even one whose
recorded status is closed and whose participants were already consumed) is
loaded reopened with its agentIds list intact. -/
theorem c10_loadState_lobby_open :
    (∀ (pl : Option JVal) (nowIso : String) (sl : StoredLobby),
      loadStateLobby pl nowIso = some sl → sl.status = "open") ∧
    (∀ (fs : List (String × JVal)) (nowIso idv : String),
      jlookup fs "id" = some (JVal.str idv) →
      ∃ sl, loadStateLobby (some (JVal.obj fs)) nowIso = some sl ∧
        sl.id = idv ∧ sl.status = "open" ∧
        sl.agentIds = (match jlookup fs "agentIds" with
          | some (JVal.arr xs) => xs.filterMap (fun v => match v with
              | JVal.str s2 => some s2
              | _ => none)
          | _ => [])) := by
  constructor
  · intro pl nowIso sl h
    unfold loadStateLobby at h
    by_cases ht : jIsTruthyObject pl = true
    · rw [if_pos ht] at h
      cases hpl : pl with
      | none => rw [hpl] at h; exact Option.noConfusion h
      | some l =>
        rw [hpl] at h
        dsimp only at h
        cases hid : jAsString (l.get? "id") with
        | none => rw [hid] at h; exact Option.noConfusion h
        | some idv =>
          rw [hid] at h
          dsimp only at h
          rw [Option.some.injEq] at h
          rw [← h]
          exact ite_self "open"
    · rw [if_neg ht] at h
      exact Option.noConfusion h
  · intro fs nowIso idv hid
    unfold loadStateLobby
    rw [if_pos (by rfl : jIsTruthyObject (some (JVal.obj fs)) = true)]
    dsimp only
    have hgid : jAsString ((JVal.obj fs).get? "id") = some idv := by
      show jAsString (jlookup fs "id") = some idv
      rw [hid]
      rfl
    rw [hgid]
    dsimp only
    refine ⟨_, rfl, rfl, ite_self "open", rfl⟩

/-- C10 witness: a persisted lobby recorded as closed, with two agent ids,
is loaded back open with the full id list. -/
theorem c10_loadState_lobby_open_witness :
    ∃ sl, loadStateLobby (some (JVal.obj closedLobbyDoc)) "now" = some sl ∧
      sl.id = "L1" ∧ sl.status = "open" ∧ sl.agentIds = ["a", "b"] := by
  obtain ⟨sl, h1, h2, h3, h4⟩ :=
    c10_loadState_lobby_open.2 closedLobbyDoc "now" "L1" rfl
  exact ⟨sl, h1, h2, h3, by rw [h4]; rfl⟩

/-- C2 counterexample: across the reachable trace exS1-exS6 — two joins, a
deadline start of run R1 with match M1 still running, two further joins
whose hand-off replaces the bracket by run R2 over C and D, and the
resolution of M1 — R2 ends up running with winner A in `next` although A is
not one of R2's participants, so no multiset of eliminated or checked-out
ids can make pool + next + eliminated equal the participant set. -/
theorem c2_bracket_conservation_counterexample :
    runStatus exS6 = "running" ∧
    runNext exS6 = ["A"] ∧
    runParticipants exS6 = ["C", "D"] ∧
    ("A" ∈ runNext exS6 ∧ "A" ∉ runParticipants exS6) ∧
    ¬ ((runNext exS6 : Multiset String) ≤ (runParticipants exS6 : Multiset String)) := by
  refine ⟨by decide, by decide, by decide, by decide, ?_⟩
  intro hle
  have hmem : ("A" : String) ∈ (runParticipants exS6 : Multiset String) :=
    Multiset.mem_of_le hle (Multiset.mem_coe.mpr (by decide))
  exact absurd (Multiset.mem_coe.mp hmem) (by decide)

/-- C2 (amended): bracket conservation holds stepwise.  A tick permutes the
multiset pool + next + (ids checked out into the match it creates), keeping
the participant list; a resolution of the current running match between the
two checked-out agents additionally returns the winner to `next` and moves
the loser out.  The proviso that the resolved match's agents are exactly
the checked-out ids (absent from pool and next, present in the roster) is
necessary: the reachable counterexample trace violates it when a
join-triggered hand-off replaces a running bracket mid-match. -/
theorem c2_bracket_conservation :
    (∀ (env : Env) (s : ArenaState) (t : TournamentRun),
      ShufflePerm env → s.tournamentRun = some t → t.status = "running" →
      (∀ id ∈ t.pool ++ t.next, id ≠ "" ∧ (findAgent? s.agents id).isSome) →
      runParticipants (tickTournament env s) = t.participants ∧
      ((runPool (tickTournament env s) : Multiset String)
          + (runNext (tickTournament env s) : Multiset String)
          + (newOut s (tickTournament env s) : Multiset String)
        = (t.pool : Multiset String) + (t.next : Multiset String))) ∧
    (∀ (env : Env) (s : ArenaState) (t : TournamentRun) (mid : String)
        (forced : Option String) (m : Match) (x y : String),
      ShufflePerm env → s.tournamentRun = some t → t.status = "running" →
      findMatch? s.matchLog mid = some m → m.status = "running" →
      m.agents = [x, y] → x ≠ "" → y ≠ "" → x ≠ y →
      (findAgent? s.agents x).isSome → (findAgent? s.agents y).isSome →
      x ∉ t.pool ++ t.next → y ∉ t.pool ++ t.next →
      (∀ id ∈ t.pool ++ t.next, id ≠ "" ∧ (findAgent? s.agents id).isSome) →
      runParticipants (resolveMatch env s mid forced).1 = t.participants ∧
      ((runPool (resolveMatch env s mid forced).1 : Multiset String)
          + (runNext (resolveMatch env s mid forced).1 : Multiset String)
          + (newOut s (resolveMatch env s mid forced).1 : Multiset String)
          + ([matchLoser env m forced] : Multiset String)
        = (t.pool : Multiset String) + (t.next : Multiset String)
          + ([x] : Multiset String) + ([y] : Multiset String))) := by
  constructor
  · intro env s t hperm hrun hts hval
    obtain ⟨h1, h2⟩ := tickFuel_conserves 3 env hperm s t hrun hts hval
    refine ⟨h1, ?_⟩
    rw [Multiset.coe_add, Multiset.coe_add, Multiset.coe_add]
    exact Multiset.coe_eq_coe.mpr h2
  · intro env s t mid forced m x y hperm hrun hts hfm hm hag hx0 hy0 hxy hxr hyr hxn hyn hval
    obtain ⟨h1, h2⟩ := resolveMatch_conserves env hperm s t mid forced m x y hrun hts
      hfm hm hag hx0 hy0 hxy hxr hyr hxn hyn hval
    refine ⟨h1, ?_⟩
    rw [Multiset.coe_add, Multiset.coe_add, Multiset.coe_add, Multiset.coe_add,
      Multiset.coe_add, Multiset.coe_add]
    have h3 : ((t.pool ++ t.next) ++ [x]) ++ [y] = t.pool ++ t.next ++ [x, y] := by
      rw [List.append_assoc (t.pool ++ t.next)]
      rfl
    rw [h3]
    exact Multiset.coe_eq_coe.mpr h2

end Claw
